import Mathlib

/-!
Verification development for the in-memory free-polyomino enumerator.

The program model (`Coord`, `canonize_fixed`, `canonize_free`, the growth
engine `candidates`/`stepMap`/`genShapes`/`genMap`, and the renderer) is a
shallow embedding of `src/main.rs`.  Coordinates are pairs of (unbounded)
integers — the Rust program uses `i32`, but every value reached for the sizes
considered here is tiny, so no overflow behaviour is observable.  The Rust
`BTreeMap` is modelled as a key-sorted association list with overwriting
insertion, which reproduces both its deduplication and its ascending
iteration order.
-/

/-- A grid cell, `struct Coord(i32, i32)` in the source.  Field `x` is the
first component, `y` the second. -/
structure Coord where
  x : Int
  y : Int
deriving DecidableEq

namespace Coord

/-- Rust `Coord::rotate`: `(x, y) ↦ (-y, x)`. -/
def rotate (c : Coord) : Coord := ⟨-c.y, c.x⟩

/-- Rust `Coord::transpose`: `(x, y) ↦ (y, x)`. -/
def transpose (c : Coord) : Coord := ⟨c.y, c.x⟩

/-- The strict order derived by Rust's `#[derive(Ord)]` on `Coord`:
lexicographic, first component first. -/
def lt (a b : Coord) : Prop := a.x < b.x ∨ (a.x = b.x ∧ a.y < b.y)

/-- The non-strict companion of `Coord.lt`. -/
def le (a b : Coord) : Prop := a.x < b.x ∨ (a.x = b.x ∧ a.y ≤ b.y)

instance decLt : @DecidableRel Coord Coord.lt := fun a b =>
  inferInstanceAs (Decidable (a.x < b.x ∨ (a.x = b.x ∧ a.y < b.y)))

instance decLe : @DecidableRel Coord Coord.le := fun a b =>
  inferInstanceAs (Decidable (a.x < b.x ∨ (a.x = b.x ∧ a.y ≤ b.y)))

end Coord

instance : LinearOrder Coord where
  le := Coord.le
  lt := Coord.lt
  le_refl a := Or.inr ⟨rfl, le_refl _⟩
  le_trans a b c hab hbc := by
    rcases hab with h | ⟨h1, h2⟩ <;> rcases hbc with h' | ⟨h1', h2'⟩ <;>
      simp only [Coord.le] <;> omega
  le_antisymm a b hab hba := by
    rcases a with ⟨ax, ay⟩
    rcases b with ⟨bx, byy⟩
    rcases hab with h | ⟨h1, h2⟩ <;> rcases hba with h' | ⟨h1', h2'⟩ <;>
      simp_all <;> omega
  le_total a b := by
    simp only [Coord.le]
    omega
  lt_iff_le_not_le a b := by
    simp only [Coord.lt, Coord.le]
    constructor
    · intro h
      constructor
      · omega
      · intro h'
        omega
    · intro ⟨h1, h2⟩
      omega
  decidableLE := Coord.decLe
  decidableLT := Coord.decLt
  decidableEq := inferInstance

/-- A polyomino, `struct Polyomino(Vec<Coord>)` in the source: an ordered
sequence of cells.  The derived Rust `Ord` on `Vec<Coord>` is the
lexicographic order, which is exactly Mathlib's linear order on `List Coord`
(built from `List.Lex` on `Coord.lt`). -/
abbrev Polyomino := List Coord

/-- A direct boolean computation of the strict lexicographic order on cell
sequences.  It exists purely so that comparisons evaluate through a small
term: the derived `Decidable` tower for `List.Lex` is far too expensive for
kernel evaluation of the growth engine. -/
def polyLtB : List Coord → List Coord → Bool
  | _, [] => false
  | [], _ :: _ => true
  | a :: as, b :: bs =>
    decide (a.x < b.x) || (decide (a.x = b.x) &&
      (decide (a.y < b.y) || (decide (a.y = b.y) && polyLtB as bs)))

/-- The correctness certificate for `polyLtB`: it decides exactly the
lexicographic strict order on cell sequences. -/
def polyLtB_iff : ∀ as bs : List Coord,
    polyLtB as bs = true ↔ List.Lex Coord.lt as bs := by
  intro as
  induction as with
  | nil =>
    intro bs
    cases bs with
    | nil =>
      constructor
      · intro h
        simp [polyLtB] at h
      · intro h
        cases h
    | cons b bs =>
      constructor
      · intro _
        exact List.Lex.nil
      · intro _
        rfl
  | cons a as ih =>
    intro bs
    cases bs with
    | nil =>
      constructor
      · intro h
        simp [polyLtB] at h
      · intro h
        exact absurd h (List.Lex.not_nil_right _ _)
    | cons b bs =>
      simp only [polyLtB, Bool.or_eq_true, Bool.and_eq_true,
        decide_eq_true_eq, ih bs]
      constructor
      · rintro (h | ⟨hx, h | ⟨hy, hrec⟩⟩)
        · exact List.Lex.rel (Or.inl h)
        · exact List.Lex.rel (Or.inr ⟨hx, h⟩)
        · have hab : a = b := by
            cases a
            cases b
            simp_all
          subst hab
          exact List.Lex.cons hrec
      · intro h
        cases h with
        | cons h' =>
          exact Or.inr ⟨rfl, Or.inr ⟨rfl, h'⟩⟩
        | rel h' =>
          have h'' : a.x < b.x ∨ (a.x = b.x ∧ a.y < b.y) := h'
          rcases h'' with h3 | ⟨h3, h4⟩
          · exact Or.inl h3
          · exact Or.inr ⟨h3, Or.inl h4⟩

instance (priority := 1100) polyDecLt : @DecidableRel (List Coord) (· < ·) :=
  fun as bs => decidable_of_iff (polyLtB as bs = true) (polyLtB_iff as bs)

instance (priority := 1100) polyDecLe : @DecidableRel (List Coord) (· ≤ ·) :=
  fun as bs =>
    decidable_of_iff (polyLtB as bs = true ∨ as = bs) (by
      constructor
      · rintro (h | rfl)
        · have h' : as < bs := (polyLtB_iff as bs).mp h
          exact le_of_lt h'
        · exact le_refl as
      · intro h
        rcases lt_or_eq_of_le h with h' | h'
        · have h'' : List.Lex Coord.lt as bs := h'
          exact Or.inl ((polyLtB_iff as bs).mpr h'')
        · exact Or.inr h')

namespace Polyomino

/-- Rust `self.0.iter().map(|coord| coord.0).min().unwrap_or(0)`. -/
def minX (p : Polyomino) : Int := ((p.map Coord.x).min?).getD 0

/-- Rust `self.0.iter().map(|coord| coord.1).min().unwrap_or(0)`. -/
def minY (p : Polyomino) : Int := ((p.map Coord.y).min?).getD 0

/-- Rust `Polyomino::canonize_fixed`: translate so the minimum x and minimum
y become 0 (`unwrap_or(0)` for the empty shape), then sort the cells. -/
def canonize_fixed (p : Polyomino) : Polyomino :=
  List.insertionSort (· ≤ ·)
    (p.map (fun c => ⟨c.x - minX p, c.y - minY p⟩))

/-- The raw (untranslated) quarter-rotation image of a shape: `rotate` before
its final `canonize_fixed`. -/
def rho (p : Polyomino) : Polyomino := p.map Coord.rotate

/-- The raw diagonal-reflection image of a shape: `transpose` before its
final `canonize_fixed`. -/
def tau (p : Polyomino) : Polyomino := p.map Coord.transpose

/-- Rust `Polyomino::rotate`: rotate every cell, then fixed-canonize. -/
def rotate (p : Polyomino) : Polyomino :=
  canonize_fixed (p.map Coord.rotate)

/-- Rust `Polyomino::transpose`: transpose every cell, then fixed-canonize. -/
def transpose (p : Polyomino) : Polyomino :=
  canonize_fixed (p.map Coord.transpose)

end Polyomino

/-- The eight symmetry classes, `enum PolyominoSymmetryGroup` in the source. -/
inductive PolyominoSymmetryGroup where
  | None
  | Mirror90
  | Mirror45
  | Rotation2Fold
  | Rotation2FoldMirror90
  | Rotation2FoldMirror45
  | Rotation4Fold
  | All
deriving DecidableEq

namespace Polyomino

/-- Rust `Polyomino::canonize_free`: compute the eight orbit images (each
re-canonized exactly as the source does), classify the symmetry group by the
source's if-chain, and return the smallest image (the source sorts the
eight-element vector and removes index 0) together with the class. -/
def canonize_free (p : Polyomino) : Polyomino × PolyominoSymmetryGroup :=
  let c0 := canonize_fixed p
  let c90 := canonize_fixed (Polyomino.rotate p)
  let c180 := canonize_fixed (Polyomino.rotate c90)
  let c270 := canonize_fixed (Polyomino.rotate c180)
  let t0 := canonize_fixed (Polyomino.transpose p)
  let t90 := canonize_fixed (Polyomino.rotate t0)
  let t180 := canonize_fixed (Polyomino.rotate t90)
  let t270 := canonize_fixed (Polyomino.rotate t180)
  let symmetry_group : PolyominoSymmetryGroup :=
    if c0 = c90 then
      if c0 = t0 then .All else .Rotation4Fold
    else if c0 = t0 ∨ c0 = t180 then
      if c0 = c180 then .Rotation2FoldMirror45 else .Mirror45
    else if c0 = t90 ∨ c0 = t270 then
      if c0 = c180 then .Rotation2FoldMirror90 else .Mirror90
    else if c0 = c180 then .Rotation2Fold
    else .None
  let all := [c0, c90, c180, c270, t0, t90, t180, t270]
  ((List.insertionSort (· ≤ ·) all).headD [], symmetry_group)

/-- The `c0` binding in `canonize_free`. -/
def c0i (p : Polyomino) : Polyomino := canonize_fixed p

/-- The `c90` binding in `canonize_free`. -/
def c90i (p : Polyomino) : Polyomino := canonize_fixed (Polyomino.rotate p)

/-- The `c180` binding in `canonize_free`. -/
def c180i (p : Polyomino) : Polyomino := canonize_fixed (Polyomino.rotate (c90i p))

/-- The `c270` binding in `canonize_free`. -/
def c270i (p : Polyomino) : Polyomino := canonize_fixed (Polyomino.rotate (c180i p))

/-- The `t0` binding in `canonize_free`. -/
def t0i (p : Polyomino) : Polyomino := canonize_fixed (Polyomino.transpose p)

/-- The `t90` binding in `canonize_free`. -/
def t90i (p : Polyomino) : Polyomino := canonize_fixed (Polyomino.rotate (t0i p))

/-- The `t180` binding in `canonize_free`. -/
def t180i (p : Polyomino) : Polyomino := canonize_fixed (Polyomino.rotate (t90i p))

/-- The `t270` binding in `canonize_free`. -/
def t270i (p : Polyomino) : Polyomino := canonize_fixed (Polyomino.rotate (t180i p))

/-- The list of the eight orbit images exactly as `canonize_free` binds
them, in the order the code pushes them into its `all` vector. -/
def imageList (p : Polyomino) : List Polyomino :=
  [c0i p, c90i p, c180i p, c270i p, t0i p, t90i p, t180i p, t270i p]

/-- Modelled from the spec and the claim wording: the eight fixed canonical
forms `canonize_fixed (g S)` where `g` ranges over identity, rotate,
rotate∘rotate, rotate∘rotate∘rotate, transpose, transpose then rotate,
transpose then rotate², and transpose then rotate³ — the raw transforms
composed directly, not interleaved with canonization. -/
def rawOrbit (p : Polyomino) : List Polyomino :=
  [canonize_fixed p, canonize_fixed (rho p), canonize_fixed (rho (rho p)),
    canonize_fixed (rho (rho (rho p))), canonize_fixed (tau p),
    canonize_fixed (rho (tau p)), canonize_fixed (rho (rho (tau p))),
    canonize_fixed (rho (rho (rho (tau p))))]

end Polyomino

/-- Modelled from the spec's words (§4.3 step 2): the symmetry-class
decision tree over the eight fixed-canonicalized orbit images, with the
spec's exact branch precedence.  The image `c270` is taken as an argument
for completeness of the interface; neither the spec's tree nor the code
compares against it. -/
def classifySpec (c0 c90 c180 _c270 t0 t90 t180 t270 : Polyomino) :
    PolyominoSymmetryGroup :=
  if c0 = c90 then
    if c0 = t0 then .All else .Rotation4Fold
  else if c0 = t0 ∨ c0 = t180 then
    if c0 = c180 then .Rotation2FoldMirror45 else .Mirror45
  else if c0 = t90 ∨ c0 = t270 then
    if c0 = c180 then .Rotation2FoldMirror90 else .Mirror90
  else if c0 = c180 then .Rotation2Fold
  else .None

/-- Rust helper `v` in `main`: reject the candidate cell if it is already
occupied, otherwise push it onto the shape and free-canonize. -/
def v (polyomino : Polyomino) (new_coord : Coord) :
    List (Polyomino × PolyominoSymmetryGroup) :=
  if new_coord ∈ polyomino then []
  else [Polyomino.canonize_free (polyomino ++ [new_coord])]

/-- The candidate pair stream of one growth step of `main`: every shape,
every cell, the four axis-aligned neighbours in the source's order. -/
def candidates (previous : List Polyomino) :
    List (Polyomino × PolyominoSymmetryGroup) :=
  previous.flatMap fun polyomino =>
    polyomino.flatMap fun c =>
      v polyomino ⟨c.x + 1, c.y⟩ ++ v polyomino ⟨c.x - 1, c.y⟩ ++
        v polyomino ⟨c.x, c.y + 1⟩ ++ v polyomino ⟨c.x, c.y - 1⟩

/-- The candidate pairs contributed by one shape: the inner loop of
`candidates`, factored out so that concrete growth steps can be verified one
previous shape at a time. -/
def candOf (polyomino : Polyomino) : List (Polyomino × PolyominoSymmetryGroup) :=
  polyomino.flatMap fun c =>
    v polyomino ⟨c.x + 1, c.y⟩ ++ v polyomino ⟨c.x - 1, c.y⟩ ++
      v polyomino ⟨c.x, c.y + 1⟩ ++ v polyomino ⟨c.x, c.y - 1⟩

/-- The shapes of generation 2, written out as data. -/
def gen2s : List Polyomino :=
  [[⟨0, 0⟩, ⟨0, 1⟩]]

/-- The shapes of generation 3, written out as data. -/
def gen3s : List Polyomino :=
  [[⟨0, 0⟩, ⟨0, 1⟩, ⟨0, 2⟩],
    [⟨0, 0⟩, ⟨0, 1⟩, ⟨1, 0⟩]]

/-- The shapes of generation 4, written out as data. -/
def gen4s : List Polyomino :=
  [[⟨0, 0⟩, ⟨0, 1⟩, ⟨0, 2⟩, ⟨0, 3⟩],
    [⟨0, 0⟩, ⟨0, 1⟩, ⟨0, 2⟩, ⟨1, 0⟩],
    [⟨0, 0⟩, ⟨0, 1⟩, ⟨0, 2⟩, ⟨1, 1⟩],
    [⟨0, 0⟩, ⟨0, 1⟩, ⟨1, 0⟩, ⟨1, 1⟩],
    [⟨0, 0⟩, ⟨0, 1⟩, ⟨1, 1⟩, ⟨1, 2⟩]]

/-- The shapes of generation 5, written out as data. -/
def gen5s : List Polyomino :=
  [[⟨0, 0⟩, ⟨0, 1⟩, ⟨0, 2⟩, ⟨0, 3⟩, ⟨0, 4⟩],
    [⟨0, 0⟩, ⟨0, 1⟩, ⟨0, 2⟩, ⟨0, 3⟩, ⟨1, 0⟩],
    [⟨0, 0⟩, ⟨0, 1⟩, ⟨0, 2⟩, ⟨0, 3⟩, ⟨1, 1⟩],
    [⟨0, 0⟩, ⟨0, 1⟩, ⟨0, 2⟩, ⟨1, 0⟩, ⟨1, 1⟩],
    [⟨0, 0⟩, ⟨0, 1⟩, ⟨0, 2⟩, ⟨1, 0⟩, ⟨1, 2⟩],
    [⟨0, 0⟩, ⟨0, 1⟩, ⟨0, 2⟩, ⟨1, 0⟩, ⟨2, 0⟩],
    [⟨0, 0⟩, ⟨0, 1⟩, ⟨0, 2⟩, ⟨1, 1⟩, ⟨2, 1⟩],
    [⟨0, 0⟩, ⟨0, 1⟩, ⟨0, 2⟩, ⟨1, 2⟩, ⟨1, 3⟩],
    [⟨0, 0⟩, ⟨0, 1⟩, ⟨1, 1⟩, ⟨1, 2⟩, ⟨2, 1⟩],
    [⟨0, 0⟩, ⟨0, 1⟩, ⟨1, 1⟩, ⟨1, 2⟩, ⟨2, 2⟩],
    [⟨0, 0⟩, ⟨0, 1⟩, ⟨1, 1⟩, ⟨2, 1⟩, ⟨2, 2⟩],
    [⟨0, 1⟩, ⟨1, 0⟩, ⟨1, 1⟩, ⟨1, 2⟩, ⟨2, 1⟩]]

/-- One insertion into the `BTreeMap` model: a key-sorted association list.
An existing key keeps its position and gets the new value; a new key is
placed at its ordered position. -/
def insertKV (m : List (Polyomino × PolyominoSymmetryGroup))
    (e : Polyomino × PolyominoSymmetryGroup) :
    List (Polyomino × PolyominoSymmetryGroup) :=
  match m with
  | [] => [e]
  | (k, w) :: rest =>
    if e.1 = k then (k, e.2) :: rest
    else if e.1 < k then e :: (k, w) :: rest
    else (k, w) :: insertKV rest e

/-- Collecting an iterator of pairs into a `BTreeMap`: repeated insertion,
later pairs overwriting earlier ones with the same key. -/
def buildMap (l : List (Polyomino × PolyominoSymmetryGroup)) :
    List (Polyomino × PolyominoSymmetryGroup) :=
  l.foldl insertKV []

/-- One transition of the growth engine: generation `n`'s map from the
shapes of generation `n − 1`. -/
def stepMap (previous : List Polyomino) :
    List (Polyomino × PolyominoSymmetryGroup) :=
  buildMap (candidates previous)

/-- The shape list carried between iterations of `main`'s loop:
`genShapes 1` is the single-cell seed, and for `n ≥ 2` the keys of
generation `n`'s map (a `BTreeMap` iterates its keys in ascending order). -/
def genShapes : Nat → List Polyomino
  | 0 => []
  | 1 => [[⟨0, 0⟩]]
  | n + 2 => (stepMap (genShapes (n + 1))).map Prod.fst

/-- Generation `n`'s map (meaningful for `n ≥ 2`), i.e. the `current` value
serialized as `<n>.json`. -/
def genMap (n : Nat) : List (Polyomino × PolyominoSymmetryGroup) :=
  stepMap (genShapes (n - 1))

/-- Key lookup in the association-list `BTreeMap` model. -/
def lookupKV (m : List (Polyomino × PolyominoSymmetryGroup)) (k : Polyomino) :
    Option PolyominoSymmetryGroup :=
  match m with
  | [] => none
  | (k', w) :: rest => if k = k' then some w else lookupKV rest k

/-- The `Display` rendering of one coordinate: `"x,y"`. -/
def Coord.render (c : Coord) : String := toString c.x ++ "," ++ toString c.y

/-- The `Display` rendering of a polyomino: the cells joined by commas. -/
def Polyomino.render (p : Polyomino) : String :=
  String.intercalate "," (p.map Coord.render)

/-- A pair list is key-functional when equal keys always carry equal
values; the candidate streams of the growth engine have this property
because the symmetry class is a function of the free canonical form. -/
def KeyFunctional (l : List (Polyomino × PolyominoSymmetryGroup)) : Prop :=
  ∀ p ∈ l, ∀ q ∈ l, p.1 = q.1 → p.2 = q.2

/-! ### Sorting and minimum toolkit -/

theorem sort_eq_of_perm {α} [LinearOrder α]
    [DecidableRel ((· ≤ ·) : α → α → Prop)] {X Y : List α} (h : X.Perm Y) :
    List.insertionSort (· ≤ ·) X = List.insertionSort (· ≤ ·) Y :=
  List.eq_of_perm_of_sorted
    ((List.perm_insertionSort _ X).trans (h.trans (List.perm_insertionSort _ Y).symm))
    (List.sorted_insertionSort _ X) (List.sorted_insertionSort _ Y)

theorem min?_eq_some_iff_lin {α} [LinearOrder α] {xs : List α} {a : α} :
    xs.min? = some a ↔ a ∈ xs ∧ ∀ b ∈ xs, a ≤ b := by
  haveI : Std.Antisymm ((· ≤ ·) : α → α → Prop) := ⟨fun h1 h2 => le_antisymm h1 h2⟩
  exact List.min?_eq_some_iff (fun a => le_refl a) (fun a b => min_choice a b)
    (fun a b c => le_min_iff)

theorem min?_perm {α} [LinearOrder α] {l₁ l₂ : List α} (h : l₁.Perm l₂) :
    l₁.min? = l₂.min? := by
  cases e : l₂.min? with
  | none =>
    rw [List.min?_eq_none_iff] at e ⊢
    subst e
    exact h.eq_nil
  | some m =>
    obtain ⟨h1, h2⟩ := min?_eq_some_iff_lin.mp e
    exact min?_eq_some_iff_lin.mpr ⟨h.mem_iff.mpr h1, fun b hb => h2 b (h.mem_iff.mp hb)⟩

theorem min?_map_sub (c : Int) (l : List Int) :
    (l.map (fun z => z - c)).min? = l.min?.map (fun z => z - c) := by
  cases e : l.min? with
  | none =>
    rw [List.min?_eq_none_iff] at e
    subst e
    rfl
  | some m =>
    obtain ⟨h1, h2⟩ := min?_eq_some_iff_lin.mp e
    show (l.map (fun z => z - c)).min? = some (m - c)
    refine min?_eq_some_iff_lin.mpr ⟨List.mem_map.mpr ⟨m, h1, rfl⟩, ?_⟩
    intro b hb
    obtain ⟨z, hz, rfl⟩ := List.mem_map.mp hb
    exact sub_le_sub_right (h2 z hz) c

namespace Polyomino

theorem minX_perm {X Y : Polyomino} (h : X.Perm Y) : minX X = minX Y := by
  unfold minX
  rw [min?_perm (h.map Coord.x)]

theorem minY_perm {X Y : Polyomino} (h : X.Perm Y) : minY X = minY Y := by
  unfold minY
  rw [min?_perm (h.map Coord.y)]

theorem canonize_fixed_perm {X Y : Polyomino} (h : X.Perm Y) :
    canonize_fixed X = canonize_fixed Y := by
  unfold canonize_fixed
  rw [minX_perm h, minY_perm h]
  exact sort_eq_of_perm (h.map _)

theorem canonize_fixed_perm_map (X : Polyomino) :
    (canonize_fixed X).Perm
      (X.map (fun c => ⟨c.x - minX X, c.y - minY X⟩)) :=
  List.perm_insertionSort _ _

theorem canonize_fixed_sorted (X : Polyomino) :
    List.Sorted (· ≤ ·) (canonize_fixed X) :=
  List.sorted_insertionSort _ _

theorem map_x_of_translate (t : Coord) (X : Polyomino) :
    (X.map (fun c => (⟨c.x - t.x, c.y - t.y⟩ : Coord))).map Coord.x =
      (X.map Coord.x).map (fun z => z - t.x) := by
  simp only [List.map_map]
  rfl

theorem map_y_of_translate (t : Coord) (X : Polyomino) :
    (X.map (fun c => (⟨c.x - t.x, c.y - t.y⟩ : Coord))).map Coord.y =
      (X.map Coord.y).map (fun z => z - t.y) := by
  simp only [List.map_map]
  rfl

theorem canonize_fixed_translate (t : Coord) (X : Polyomino) :
    canonize_fixed (X.map (fun c => ⟨c.x - t.x, c.y - t.y⟩)) =
      canonize_fixed X := by
  rcases X with _ | ⟨a, X0⟩
  · rfl
  · obtain ⟨mx, hmx⟩ : ∃ m, ((a :: X0).map Coord.x).min? = some m := ⟨_, rfl⟩
    obtain ⟨my, hmy⟩ : ∃ m, ((a :: X0).map Coord.y).min? = some m := ⟨_, rfl⟩
    have h1 : minX ((a :: X0).map (fun c => ⟨c.x - t.x, c.y - t.y⟩)) = mx - t.x := by
      unfold minX
      rw [map_x_of_translate, min?_map_sub, hmx]
      rfl
    have h2 : minY ((a :: X0).map (fun c => ⟨c.x - t.x, c.y - t.y⟩)) = my - t.y := by
      unfold minY
      rw [map_y_of_translate, min?_map_sub, hmy]
      rfl
    have h3 : minX (a :: X0) = mx := by
      unfold minX
      rw [hmx]
      rfl
    have h4 : minY (a :: X0) = my := by
      unfold minY
      rw [hmy]
      rfl
    unfold canonize_fixed
    rw [h1, h2, h3, h4, List.map_map]
    have h5 : ((fun c : Coord => (⟨c.x - (mx - t.x), c.y - (my - t.y)⟩ : Coord)) ∘
        (fun c : Coord => (⟨c.x - t.x, c.y - t.y⟩ : Coord))) =
        (fun c : Coord => (⟨c.x - mx, c.y - my⟩ : Coord)) := by
      funext c
      simp only [Function.comp_apply, Coord.mk.injEq]
      constructor <;> omega
    rw [h5]

theorem minX_canonize_fixed {X : Polyomino} (h : X ≠ []) :
    minX (canonize_fixed X) = 0 := by
  obtain ⟨a, X0, rfl⟩ := List.exists_cons_of_ne_nil h
  obtain ⟨mx, hmx⟩ : ∃ m, ((a :: X0).map Coord.x).min? = some m := ⟨_, rfl⟩
  have h3 : minX (a :: X0) = mx := by
    unfold minX
    rw [hmx]
    rfl
  unfold minX
  rw [min?_perm ((canonize_fixed_perm_map (a :: X0)).map Coord.x),
    map_x_of_translate ⟨minX (a :: X0), minY (a :: X0)⟩, min?_map_sub, hmx, h3]
  simp

theorem minY_canonize_fixed {X : Polyomino} (h : X ≠ []) :
    minY (canonize_fixed X) = 0 := by
  obtain ⟨a, X0, rfl⟩ := List.exists_cons_of_ne_nil h
  obtain ⟨my, hmy⟩ : ∃ m, ((a :: X0).map Coord.y).min? = some m := ⟨_, rfl⟩
  have h4 : minY (a :: X0) = my := by
    unfold minY
    rw [hmy]
    rfl
  unfold minY
  rw [min?_perm ((canonize_fixed_perm_map (a :: X0)).map Coord.y),
    map_y_of_translate ⟨minX (a :: X0), minY (a :: X0)⟩, min?_map_sub, hmy, h4]
  simp

theorem canonize_fixed_eq_self {X : Polyomino} (h0x : minX X = 0) (h0y : minY X = 0)
    (hs : List.Sorted (· ≤ ·) X) : canonize_fixed X = X := by
  unfold canonize_fixed
  rw [h0x, h0y]
  have h5 : (fun c : Coord => (⟨c.x - 0, c.y - 0⟩ : Coord)) = id := by
    funext c
    cases c
    simp
  rw [h5, List.map_id]
  exact hs.insertionSort_eq

theorem canonize_fixed_length (X : Polyomino) :
    (canonize_fixed X).length = X.length := by
  rw [(canonize_fixed_perm_map X).length_eq, List.length_map]

theorem canonize_fixed_ne_nil {X : Polyomino} (h : X ≠ []) :
    canonize_fixed X ≠ [] := by
  intro contra
  apply h
  have hl := canonize_fixed_length X
  rw [contra] at hl
  exact List.length_eq_zero.mp hl.symm

theorem norm_injective (mx my : Int) :
    Function.Injective (fun c : Coord => (⟨c.x - mx, c.y - my⟩ : Coord)) := by
  rintro ⟨ax, ay⟩ ⟨bx, byy⟩ h
  simp only [Coord.mk.injEq] at h ⊢
  omega

theorem canonize_fixed_nodup {X : Polyomino} (h : X.Nodup) :
    (canonize_fixed X).Nodup := by
  rw [(canonize_fixed_perm_map X).nodup_iff]
  exact h.map (norm_injective (minX X) (minY X))

theorem canonize_fixed_strict {X : Polyomino} (h : X.Nodup) :
    List.Pairwise (· < ·) (canonize_fixed X) := by
  have h1 := canonize_fixed_sorted X
  have h2 := canonize_fixed_nodup h
  exact (h1.and h2).imp fun hab => lt_of_le_of_ne hab.1 hab.2

theorem min?_x_canonize_fixed {S : Polyomino} (h : S ≠ []) :
    ((canonize_fixed S).map Coord.x).min? = some 0 := by
  have hne := canonize_fixed_ne_nil h
  cases e : ((canonize_fixed S).map Coord.x).min? with
  | none =>
    rw [List.min?_eq_none_iff, List.map_eq_nil_iff] at e
    exact absurd e hne
  | some m =>
    have h0 := minX_canonize_fixed h
    unfold minX at h0
    rw [e] at h0
    simp only [Option.getD_some] at h0
    rw [h0]

theorem min?_y_canonize_fixed {S : Polyomino} (h : S ≠ []) :
    ((canonize_fixed S).map Coord.y).min? = some 0 := by
  have hne := canonize_fixed_ne_nil h
  cases e : ((canonize_fixed S).map Coord.y).min? with
  | none =>
    rw [List.min?_eq_none_iff, List.map_eq_nil_iff] at e
    exact absurd e hne
  | some m =>
    have h0 := minY_canonize_fixed h
    unfold minY at h0
    rw [e] at h0
    simp only [Option.getD_some] at h0
    rw [h0]

theorem canonize_fixed_idem (X : Polyomino) :
    canonize_fixed (canonize_fixed X) = canonize_fixed X := by
  rcases eq_or_ne X [] with rfl | h
  · rfl
  · exact canonize_fixed_eq_self (minX_canonize_fixed h) (minY_canonize_fixed h)
      (canonize_fixed_sorted X)

theorem canonize_fixed_map_comm (f : Coord → Coord)
    (hf : ∀ c t : Coord,
      f ⟨c.x - t.x, c.y - t.y⟩ = ⟨(f c).x - (f t).x, (f c).y - (f t).y⟩)
    (X : Polyomino) :
    canonize_fixed ((canonize_fixed X).map f) = canonize_fixed (X.map f) := by
  have h0 : ((canonize_fixed X).map f).Perm
      ((X.map (fun c => ⟨c.x - minX X, c.y - minY X⟩)).map f) :=
    (canonize_fixed_perm_map X).map f
  rw [canonize_fixed_perm h0, List.map_map]
  have h1 : (f ∘ fun c : Coord => (⟨c.x - minX X, c.y - minY X⟩ : Coord)) =
      (fun d : Coord =>
        (⟨d.x - (f ⟨minX X, minY X⟩).x, d.y - (f ⟨minX X, minY X⟩).y⟩ : Coord)) ∘ f := by
    funext c
    exact hf c ⟨minX X, minY X⟩
  rw [h1, ← List.map_map]
  exact canonize_fixed_translate (f ⟨minX X, minY X⟩) (X.map f)

theorem rotate_sub (c t : Coord) :
    Coord.rotate ⟨c.x - t.x, c.y - t.y⟩ =
      ⟨(Coord.rotate c).x - (Coord.rotate t).x,
        (Coord.rotate c).y - (Coord.rotate t).y⟩ := by
  rcases c with ⟨cx, cy⟩
  rcases t with ⟨tx, ty⟩
  simp only [Coord.rotate, Coord.mk.injEq, and_true]
  omega

theorem transpose_sub (c t : Coord) :
    Coord.transpose ⟨c.x - t.x, c.y - t.y⟩ =
      ⟨(Coord.transpose c).x - (Coord.transpose t).x,
        (Coord.transpose c).y - (Coord.transpose t).y⟩ := by
  simp only [Coord.transpose]

theorem cf_rho_cf (X : Polyomino) :
    canonize_fixed (rho (canonize_fixed X)) = canonize_fixed (rho X) :=
  canonize_fixed_map_comm Coord.rotate rotate_sub X

theorem cf_tau_cf (X : Polyomino) :
    canonize_fixed (tau (canonize_fixed X)) = canonize_fixed (tau X) :=
  canonize_fixed_map_comm Coord.transpose transpose_sub X

theorem cf_congr_rho {A B : Polyomino} (h : canonize_fixed A = canonize_fixed B) :
    canonize_fixed (rho A) = canonize_fixed (rho B) := by
  rw [← cf_rho_cf A, ← cf_rho_cf B, h]

theorem cf_congr_tau {A B : Polyomino} (h : canonize_fixed A = canonize_fixed B) :
    canonize_fixed (tau A) = canonize_fixed (tau B) := by
  rw [← cf_tau_cf A, ← cf_tau_cf B, h]

theorem rho_four (X : Polyomino) : rho (rho (rho (rho X))) = X := by
  simp only [rho, List.map_map]
  have h : (Coord.rotate ∘ Coord.rotate ∘ Coord.rotate ∘ Coord.rotate) = id := by
    funext c
    simp [Coord.rotate]
  rw [h, List.map_id]

theorem tau_tau (X : Polyomino) : tau (tau X) = X := by
  simp only [tau, List.map_map]
  have h : (Coord.transpose ∘ Coord.transpose) = id := by
    funext c
    simp [Coord.transpose]
  rw [h, List.map_id]

theorem tau_rho (X : Polyomino) : tau (rho X) = rho (rho (rho (tau X))) := by
  simp only [tau, rho, List.map_map]
  have h : (Coord.transpose ∘ Coord.rotate) =
      (Coord.rotate ∘ Coord.rotate ∘ Coord.rotate ∘ Coord.transpose) := by
    funext c
    simp [Coord.rotate, Coord.transpose]
  rw [h]

/-! ### The eight orbit images as the code computes them -/

theorem c0i_eq (p : Polyomino) : c0i p = canonize_fixed p := rfl

theorem c90i_eq (p : Polyomino) : c90i p = canonize_fixed (rho p) :=
  canonize_fixed_idem (rho p)

theorem c180i_eq (p : Polyomino) : c180i p = canonize_fixed (rho (rho p)) := by
  show canonize_fixed (canonize_fixed (rho (c90i p))) = _
  rw [canonize_fixed_idem, c90i_eq, cf_rho_cf]

theorem c270i_eq (p : Polyomino) :
    c270i p = canonize_fixed (rho (rho (rho p))) := by
  show canonize_fixed (canonize_fixed (rho (c180i p))) = _
  rw [canonize_fixed_idem, c180i_eq, cf_rho_cf]

theorem t0i_eq (p : Polyomino) : t0i p = canonize_fixed (tau p) :=
  canonize_fixed_idem (tau p)

theorem t90i_eq (p : Polyomino) : t90i p = canonize_fixed (rho (tau p)) := by
  show canonize_fixed (canonize_fixed (rho (t0i p))) = _
  rw [canonize_fixed_idem, t0i_eq, cf_rho_cf]

theorem t180i_eq (p : Polyomino) :
    t180i p = canonize_fixed (rho (rho (tau p))) := by
  show canonize_fixed (canonize_fixed (rho (t90i p))) = _
  rw [canonize_fixed_idem, t90i_eq, cf_rho_cf]

theorem t270i_eq (p : Polyomino) :
    t270i p = canonize_fixed (rho (rho (rho (tau p)))) := by
  show canonize_fixed (canonize_fixed (rho (t180i p))) = _
  rw [canonize_fixed_idem, t180i_eq, cf_rho_cf]

theorem canonize_free_eq (p : Polyomino) :
    canonize_free p =
      ((List.insertionSort (· ≤ ·) (imageList p)).headD [],
        classifySpec (c0i p) (c90i p) (c180i p) (c270i p)
          (t0i p) (t90i p) (t180i p) (t270i p)) := by
  unfold canonize_free imageList classifySpec c0i c90i c180i c270i t0i t90i t180i t270i
  rfl

theorem canonize_free_fst (p : Polyomino) :
    (canonize_free p).1 = (List.insertionSort (· ≤ ·) (imageList p)).headD [] := by
  rw [canonize_free_eq]

theorem canonize_free_snd (p : Polyomino) :
    (canonize_free p).2 =
      classifySpec (c0i p) (c90i p) (c180i p) (c270i p)
        (t0i p) (t90i p) (t180i p) (t270i p) := by
  rw [canonize_free_eq]

theorem imageList_eq_rawOrbit (p : Polyomino) : imageList p = rawOrbit p := by
  simp only [imageList, rawOrbit, c0i_eq, c90i_eq, c180i_eq, c270i_eq,
    t0i_eq, t90i_eq, t180i_eq, t270i_eq]

end Polyomino

theorem head_insertionSort_min? {α} [LinearOrder α]
    [DecidableRel ((· ≤ ·) : α → α → Prop)] (l : List α) (d : α)
    (h : l ≠ []) :
    l.min? = some ((List.insertionSort (· ≤ ·) l).headD d) := by
  cases e : List.insertionSort (· ≤ ·) l with
  | nil =>
    have h2 := List.perm_insertionSort ((· ≤ ·) : α → α → Prop) l
    rw [e] at h2
    exact absurd h2.symm.eq_nil h
  | cons a rest =>
    show l.min? = some a
    refine min?_eq_some_iff_lin.mpr ⟨?_, ?_⟩
    · have hmem : a ∈ List.insertionSort (· ≤ ·) l := by
        rw [e]
        exact List.mem_cons_self a rest
      exact (List.perm_insertionSort (· ≤ ·) l).mem_iff.mp hmem
    · intro b hb
      have hb2 : b ∈ a :: rest := by
        rw [← e]
        exact (List.perm_insertionSort (· ≤ ·) l).mem_iff.mpr hb
      have hs := List.sorted_insertionSort ((· ≤ ·) : α → α → Prop) l
      rw [e] at hs
      rcases List.mem_cons.mp hb2 with rfl | hmem
      · exact le_refl b
      · exact (List.sorted_cons.mp hs).1 b hmem

/-! ### Claim theorems -/

/-- C8: for every shape `S`, applying `canonize_fixed` twice yields the same
result as applying it once. -/
theorem claim_C8_canonize_fixed_idempotent (S : Polyomino) :
    Polyomino.canonize_fixed (Polyomino.canonize_fixed S) =
      Polyomino.canonize_fixed S :=
  Polyomino.canonize_fixed_idem S

/-- C7: for every shape `S` (non-empty, with distinct cells, as the data
model defines a shape), `canonize_fixed S` has minimum x = 0 and minimum
y = 0 among its cells, and its cell sequence is strictly ascending in the
lexicographic order, hence has no duplicates. -/
theorem claim_C7_canonize_fixed_normalized (S : Polyomino)
    (h1 : S ≠ []) (h2 : S.Nodup) :
    ((Polyomino.canonize_fixed S).map Coord.x).min? = some 0 ∧
    ((Polyomino.canonize_fixed S).map Coord.y).min? = some 0 ∧
    List.Pairwise (· < ·) (Polyomino.canonize_fixed S) ∧
    (Polyomino.canonize_fixed S).Nodup :=
  ⟨Polyomino.min?_x_canonize_fixed h1, Polyomino.min?_y_canonize_fixed h1,
    Polyomino.canonize_fixed_strict h2, Polyomino.canonize_fixed_nodup h2⟩

/-- C7 witness: the claim instantiated at the concrete domino shape
`[(1, 2), (1, 3)]`. -/
theorem claim_C7_witness :
    ([⟨1, 2⟩, ⟨1, 3⟩] : Polyomino) ≠ [] ∧
    ([⟨1, 2⟩, ⟨1, 3⟩] : Polyomino).Nodup ∧
    (((Polyomino.canonize_fixed [⟨1, 2⟩, ⟨1, 3⟩]).map Coord.x).min? = some 0 ∧
      ((Polyomino.canonize_fixed [⟨1, 2⟩, ⟨1, 3⟩]).map Coord.y).min? = some 0 ∧
      List.Pairwise (· < ·) (Polyomino.canonize_fixed [⟨1, 2⟩, ⟨1, 3⟩]) ∧
      (Polyomino.canonize_fixed [⟨1, 2⟩, ⟨1, 3⟩]).Nodup) :=
  ⟨by decide, by decide,
    claim_C7_canonize_fixed_normalized [⟨1, 2⟩, ⟨1, 3⟩] (by decide) (by decide)⟩

/-- C4: for every shape `S`, the symmetry class returned by `canonize_free`
is exactly the spec's first-match decision tree applied to the eight
fixed-canonicalized orbit images `c0, c90, c180, c270, t0, t90, t180, t270`
as the code binds them. -/
theorem claim_C4_classifier_decision_order (S : Polyomino) :
    (Polyomino.canonize_free S).2 =
      classifySpec (Polyomino.c0i S) (Polyomino.c90i S) (Polyomino.c180i S)
        (Polyomino.c270i S) (Polyomino.t0i S) (Polyomino.t90i S)
        (Polyomino.t180i S) (Polyomino.t270i S) :=
  Polyomino.canonize_free_snd S

/-- C1: for every non-empty shape `S` with distinct cells, the first
component of `canonize_free S` is the lexicographically smallest of the
eight fixed canonical forms of the raw orbit images (identity, the three
rotation powers, and the four reflections) — even though the code computes
the images by interleaving `canonize_fixed` with single rotations. -/
theorem claim_C1_free_form_is_min_of_raw_orbit (S : Polyomino)
    (h1 : S ≠ []) (h2 : S.Nodup) :
    (Polyomino.rawOrbit S).min? = some (Polyomino.canonize_free S).1 := by
  rw [Polyomino.canonize_free_fst, Polyomino.imageList_eq_rawOrbit]
  exact head_insertionSort_min? (Polyomino.rawOrbit S) []
    (by simp [Polyomino.rawOrbit])

/-- C1 witness: the claim instantiated at the concrete domino
`[(0, 0), (1, 0)]`. -/
theorem claim_C1_witness :
    ([⟨0, 0⟩, ⟨1, 0⟩] : Polyomino) ≠ [] ∧
    ([⟨0, 0⟩, ⟨1, 0⟩] : Polyomino).Nodup ∧
    (Polyomino.rawOrbit [⟨0, 0⟩, ⟨1, 0⟩]).min? =
      some (Polyomino.canonize_free [⟨0, 0⟩, ⟨1, 0⟩]).1 :=
  ⟨by decide, by decide,
    claim_C1_free_form_is_min_of_raw_orbit [⟨0, 0⟩, ⟨1, 0⟩] (by decide) (by decide)⟩

/-! ### Shift equivalences between orbit-image equalities.

Rotating or transposing the input shape permutes the eight orbit images;
these lemmas transport the classifier's equality tests along that
permutation.  Throughout, `r i` stands for `canonize_fixed (rho^i S)` and
`s i` for `canonize_fixed (rho^i (tau S))`. -/

namespace Polyomino

theorem iff_r1r2 (S : Polyomino) :
    canonize_fixed (rho S) = canonize_fixed (rho (rho S)) ↔
      canonize_fixed S = canonize_fixed (rho S) := by
  constructor <;> intro h
  · have h3 := cf_congr_rho (cf_congr_rho (cf_congr_rho h))
    simp only [rho_four, tau_rho, tau_tau] at h3
    exact h3
  · exact cf_congr_rho h

theorem iff_r1r3 (S : Polyomino) :
    canonize_fixed (rho S) = canonize_fixed (rho (rho (rho S))) ↔
      canonize_fixed S = canonize_fixed (rho (rho S)) := by
  constructor <;> intro h
  · have h3 := cf_congr_rho (cf_congr_rho (cf_congr_rho h))
    simp only [rho_four, tau_rho, tau_tau] at h3
    exact h3
  · exact cf_congr_rho h

theorem iff_r1s3 (S : Polyomino) :
    canonize_fixed (rho S) = canonize_fixed (rho (rho (rho (tau S)))) ↔
      canonize_fixed S = canonize_fixed (rho (rho (tau S))) := by
  constructor <;> intro h
  · have h3 := cf_congr_rho (cf_congr_rho (cf_congr_rho h))
    simp only [rho_four, tau_rho, tau_tau] at h3
    exact h3
  · exact cf_congr_rho h

theorem iff_r1s1 (S : Polyomino) :
    canonize_fixed (rho S) = canonize_fixed (rho (tau S)) ↔
      canonize_fixed S = canonize_fixed (tau S) := by
  constructor <;> intro h
  · have h3 := cf_congr_rho (cf_congr_rho (cf_congr_rho h))
    simp only [rho_four, tau_rho, tau_tau] at h3
    exact h3
  · exact cf_congr_rho h

theorem iff_r1s0 (S : Polyomino) :
    canonize_fixed (rho S) = canonize_fixed (tau S) ↔
      canonize_fixed S = canonize_fixed (rho (rho (rho (tau S)))) := by
  constructor <;> intro h
  · have h3 := cf_congr_rho (cf_congr_rho (cf_congr_rho h))
    simp only [rho_four, tau_rho, tau_tau] at h3
    exact h3
  · have h1 := cf_congr_rho h
    simp only [rho_four, tau_rho, tau_tau] at h1
    exact h1

theorem iff_r1s2 (S : Polyomino) :
    canonize_fixed (rho S) = canonize_fixed (rho (rho (tau S))) ↔
      canonize_fixed S = canonize_fixed (rho (tau S)) := by
  constructor <;> intro h
  · have h3 := cf_congr_rho (cf_congr_rho (cf_congr_rho h))
    simp only [rho_four, tau_rho, tau_tau] at h3
    exact h3
  · exact cf_congr_rho h

theorem iff_r2s2 (S : Polyomino) :
    canonize_fixed (rho (rho S)) = canonize_fixed (rho (rho (tau S))) ↔
      canonize_fixed S = canonize_fixed (tau S) := by
  constructor <;> intro h
  · have h3 := cf_congr_rho (cf_congr_rho h)
    simp only [rho_four, tau_rho, tau_tau] at h3
    exact h3
  · exact cf_congr_rho (cf_congr_rho h)

theorem iff_s0s1 (S : Polyomino) :
    canonize_fixed (tau S) = canonize_fixed (rho (tau S)) ↔
      canonize_fixed S = canonize_fixed (rho S) := by
  constructor <;> intro h
  · have h1 := cf_congr_tau h
    simp only [rho_four, tau_rho, tau_tau] at h1
    have h2 := cf_congr_rho h1
    simp only [rho_four, tau_rho, tau_tau] at h2
    exact h2.symm
  · have h1 := cf_congr_tau h
    simp only [rho_four, tau_rho, tau_tau] at h1
    have h2 := cf_congr_rho h1
    simp only [rho_four, tau_rho, tau_tau] at h2
    exact h2.symm

theorem iff_s0s2 (S : Polyomino) :
    canonize_fixed (tau S) = canonize_fixed (rho (rho (tau S))) ↔
      canonize_fixed S = canonize_fixed (rho (rho S)) := by
  constructor <;> intro h
  · have h1 := cf_congr_tau h
    simp only [rho_four, tau_rho, tau_tau] at h1
    exact h1
  · have h1 := cf_congr_tau h
    simp only [rho_four, tau_rho, tau_tau] at h1
    exact h1

theorem iff_s0r1 (S : Polyomino) :
    canonize_fixed (tau S) = canonize_fixed (rho S) ↔
      canonize_fixed S = canonize_fixed (rho (rho (rho (tau S)))) := by
  constructor <;> intro h
  · have h1 := cf_congr_tau h
    simp only [rho_four, tau_rho, tau_tau] at h1
    exact h1
  · have h1 := cf_congr_tau h
    simp only [rho_four, tau_rho, tau_tau] at h1
    exact h1

theorem iff_s0r3 (S : Polyomino) :
    canonize_fixed (tau S) = canonize_fixed (rho (rho (rho S))) ↔
      canonize_fixed S = canonize_fixed (rho (tau S)) := by
  constructor <;> intro h
  · have h1 := cf_congr_tau h
    simp only [rho_four, tau_rho, tau_tau] at h1
    exact h1
  · have h1 := cf_congr_tau h
    simp only [rho_four, tau_rho, tau_tau] at h1
    exact h1

end Polyomino

namespace Polyomino

theorem rotate_eq (S : Polyomino) : Polyomino.rotate S = canonize_fixed (rho S) :=
  rfl

theorem transpose_eq (S : Polyomino) :
    Polyomino.transpose S = canonize_fixed (tau S) :=
  rfl

theorem c0i_rotate (S : Polyomino) :
    c0i (Polyomino.rotate S) = canonize_fixed (rho S) :=
  canonize_fixed_idem (rho S)

theorem c90i_rotate (S : Polyomino) :
    c90i (Polyomino.rotate S) = canonize_fixed (rho (rho S)) := by
  rw [c90i_eq, rotate_eq]
  exact cf_rho_cf (rho S)

theorem c180i_rotate (S : Polyomino) :
    c180i (Polyomino.rotate S) = canonize_fixed (rho (rho (rho S))) := by
  rw [c180i_eq, rotate_eq]
  exact cf_congr_rho (cf_rho_cf (rho S))

theorem c270i_rotate (S : Polyomino) :
    c270i (Polyomino.rotate S) = canonize_fixed S := by
  rw [c270i_eq, rotate_eq]
  have h := cf_congr_rho (cf_congr_rho (cf_rho_cf (rho S)))
  simp only [rho_four] at h
  exact h

theorem t0i_rotate (S : Polyomino) :
    t0i (Polyomino.rotate S) = canonize_fixed (rho (rho (rho (tau S)))) := by
  rw [t0i_eq, rotate_eq]
  have h := cf_tau_cf (rho S)
  simp only [tau_rho] at h
  exact h

theorem t90i_rotate (S : Polyomino) :
    t90i (Polyomino.rotate S) = canonize_fixed (tau S) := by
  rw [t90i_eq, rotate_eq]
  have h := cf_congr_rho (cf_tau_cf (rho S))
  simp only [tau_rho, rho_four] at h
  exact h

theorem t180i_rotate (S : Polyomino) :
    t180i (Polyomino.rotate S) = canonize_fixed (rho (tau S)) := by
  rw [t180i_eq, rotate_eq]
  have h := cf_congr_rho (cf_congr_rho (cf_tau_cf (rho S)))
  simp only [tau_rho, rho_four] at h
  exact h

theorem t270i_rotate (S : Polyomino) :
    t270i (Polyomino.rotate S) = canonize_fixed (rho (rho (tau S))) := by
  rw [t270i_eq, rotate_eq]
  have h := cf_congr_rho (cf_congr_rho (cf_congr_rho (cf_tau_cf (rho S))))
  simp only [tau_rho, rho_four] at h
  exact h

theorem c0i_transpose (S : Polyomino) :
    c0i (Polyomino.transpose S) = canonize_fixed (tau S) :=
  canonize_fixed_idem (tau S)

theorem c90i_transpose (S : Polyomino) :
    c90i (Polyomino.transpose S) = canonize_fixed (rho (tau S)) := by
  rw [c90i_eq, transpose_eq]
  exact cf_rho_cf (tau S)

theorem c180i_transpose (S : Polyomino) :
    c180i (Polyomino.transpose S) = canonize_fixed (rho (rho (tau S))) := by
  rw [c180i_eq, transpose_eq]
  exact cf_congr_rho (cf_rho_cf (tau S))

theorem c270i_transpose (S : Polyomino) :
    c270i (Polyomino.transpose S) = canonize_fixed (rho (rho (rho (tau S)))) := by
  rw [c270i_eq, transpose_eq]
  exact cf_congr_rho (cf_congr_rho (cf_rho_cf (tau S)))

theorem t0i_transpose (S : Polyomino) :
    t0i (Polyomino.transpose S) = canonize_fixed S := by
  rw [t0i_eq, transpose_eq]
  have h := cf_tau_cf (tau S)
  simp only [tau_tau] at h
  exact h

theorem t90i_transpose (S : Polyomino) :
    t90i (Polyomino.transpose S) = canonize_fixed (rho S) := by
  rw [t90i_eq, transpose_eq]
  have h := cf_congr_rho (cf_tau_cf (tau S))
  simp only [tau_tau] at h
  exact h

theorem t180i_transpose (S : Polyomino) :
    t180i (Polyomino.transpose S) = canonize_fixed (rho (rho S)) := by
  rw [t180i_eq, transpose_eq]
  have h := cf_congr_rho (cf_congr_rho (cf_tau_cf (tau S)))
  simp only [tau_tau] at h
  exact h

theorem t270i_transpose (S : Polyomino) :
    t270i (Polyomino.transpose S) = canonize_fixed (rho (rho (rho S))) := by
  rw [t270i_eq, transpose_eq]
  have h := cf_congr_rho (cf_congr_rho (cf_congr_rho (cf_tau_cf (tau S))))
  simp only [tau_tau] at h
  exact h

end Polyomino

theorem classifySpec_congr
    {a0 a90 a180 a270 b0 b90 b180 b270
      c0 c90 c180 c270 d0 d90 d180 d270 : Polyomino}
    (h1 : (a0 = a90) ↔ (c0 = c90))
    (h2 : a0 = a90 → ((a0 = b0) ↔ (c0 = d0)))
    (h3 : (a0 = b0 ∨ a0 = b180) ↔ (c0 = d0 ∨ c0 = d180))
    (h4 : (a0 = b90 ∨ a0 = b270) ↔ (c0 = d90 ∨ c0 = d270))
    (h5 : (a0 = a180) ↔ (c0 = c180)) :
    classifySpec a0 a90 a180 a270 b0 b90 b180 b270 =
      classifySpec c0 c90 c180 c270 d0 d90 d180 d270 := by
  unfold classifySpec
  by_cases k1 : a0 = a90
  · rw [if_pos k1, if_pos (h1.mp k1)]
    by_cases k2 : a0 = b0
    · rw [if_pos k2, if_pos ((h2 k1).mp k2)]
    · rw [if_neg k2, if_neg (fun hc => k2 ((h2 k1).mpr hc))]
  · rw [if_neg k1, if_neg (fun hc => k1 (h1.mpr hc))]
    by_cases k3 : a0 = b0 ∨ a0 = b180
    · rw [if_pos k3, if_pos (h3.mp k3)]
      by_cases k5 : a0 = a180
      · rw [if_pos k5, if_pos (h5.mp k5)]
      · rw [if_neg k5, if_neg (fun hc => k5 (h5.mpr hc))]
    · rw [if_neg k3, if_neg (fun hc => k3 (h3.mpr hc))]
      by_cases k4 : a0 = b90 ∨ a0 = b270
      · rw [if_pos k4, if_pos (h4.mp k4)]
        by_cases k5 : a0 = a180
        · rw [if_pos k5, if_pos (h5.mp k5)]
        · rw [if_neg k5, if_neg (fun hc => k5 (h5.mpr hc))]
      · rw [if_neg k4, if_neg (fun hc => k4 (h4.mpr hc))]
        by_cases k5 : a0 = a180
        · rw [if_pos k5, if_pos (h5.mp k5)]
        · rw [if_neg k5, if_neg (fun hc => k5 (h5.mpr hc))]

namespace Polyomino

theorem iff_s0r2 (S : Polyomino) :
    canonize_fixed (tau S) = canonize_fixed (rho (rho S)) ↔
      canonize_fixed S = canonize_fixed (rho (rho (tau S))) := by
  constructor <;> intro h
  · have h1 := cf_congr_tau h
    simp only [rho_four, tau_rho, tau_tau] at h1
    exact h1
  · have h1 := cf_congr_tau h
    simp only [rho_four, tau_rho, tau_tau] at h1
    exact h1

theorem canonize_free_fst_rotate (S : Polyomino) :
    (canonize_free (Polyomino.rotate S)).1 = (canonize_free S).1 := by
  rw [canonize_free_fst, canonize_free_fst]
  unfold imageList
  rw [c0i_rotate, c90i_rotate, c180i_rotate, c270i_rotate, t0i_rotate,
    t90i_rotate, t180i_rotate, t270i_rotate, c0i_eq, c90i_eq, c180i_eq,
    c270i_eq, t0i_eq, t90i_eq, t180i_eq, t270i_eq]
  have hp1 := @List.perm_append_comm Polyomino
    [canonize_fixed (rho S), canonize_fixed (rho (rho S)),
      canonize_fixed (rho (rho (rho S)))] [canonize_fixed S]
  have hp2 := @List.perm_append_comm Polyomino
    [canonize_fixed (rho (rho (rho (tau S))))]
    [canonize_fixed (tau S), canonize_fixed (rho (tau S)),
      canonize_fixed (rho (rho (tau S)))]
  have hperm : ([canonize_fixed (rho S), canonize_fixed (rho (rho S)),
      canonize_fixed (rho (rho (rho S))), canonize_fixed S,
      canonize_fixed (rho (rho (rho (tau S)))), canonize_fixed (tau S),
      canonize_fixed (rho (tau S)),
      canonize_fixed (rho (rho (tau S)))] : List Polyomino).Perm
      [canonize_fixed S, canonize_fixed (rho S), canonize_fixed (rho (rho S)),
        canonize_fixed (rho (rho (rho S))), canonize_fixed (tau S),
        canonize_fixed (rho (tau S)), canonize_fixed (rho (rho (tau S))),
        canonize_fixed (rho (rho (rho (tau S))))] := hp1.append hp2
  rw [sort_eq_of_perm hperm]

theorem canonize_free_snd_rotate (S : Polyomino) :
    (canonize_free (Polyomino.rotate S)).2 = (canonize_free S).2 := by
  rw [canonize_free_snd, canonize_free_snd]
  rw [c0i_rotate, c90i_rotate, c180i_rotate, c270i_rotate, t0i_rotate,
    t90i_rotate, t180i_rotate, t270i_rotate, c0i_eq, c90i_eq, c180i_eq,
    c270i_eq, t0i_eq, t90i_eq, t180i_eq, t270i_eq]
  refine classifySpec_congr (iff_r1r2 S) ?_ ?_ ?_ (iff_r1r3 S)
  · intro k
    constructor
    · intro hr
      have e01 := (iff_r1r2 S).mp k
      have e02 := e01.trans k
      have hs2 := (iff_r1s3 S).mp hr
      exact (iff_r2s2 S).mp (e02.symm.trans hs2)
    · intro h0
      have h33 := cf_congr_rho (cf_congr_rho (cf_congr_rho h0))
      exact (k.trans (cf_congr_rho k)).trans h33
  · exact (or_congr (iff_r1s3 S) (iff_r1s1 S)).trans or_comm
  · exact (or_congr (iff_r1s0 S) (iff_r1s2 S)).trans or_comm

theorem canonize_free_fst_transpose (S : Polyomino) :
    (canonize_free (Polyomino.transpose S)).1 = (canonize_free S).1 := by
  rw [canonize_free_fst, canonize_free_fst]
  unfold imageList
  rw [c0i_transpose, c90i_transpose, c180i_transpose, c270i_transpose,
    t0i_transpose, t90i_transpose, t180i_transpose, t270i_transpose,
    c0i_eq, c90i_eq, c180i_eq, c270i_eq, t0i_eq, t90i_eq, t180i_eq, t270i_eq]
  have hperm : ([canonize_fixed (tau S), canonize_fixed (rho (tau S)),
      canonize_fixed (rho (rho (tau S))),
      canonize_fixed (rho (rho (rho (tau S)))), canonize_fixed S,
      canonize_fixed (rho S), canonize_fixed (rho (rho S)),
      canonize_fixed (rho (rho (rho S)))] : List Polyomino).Perm
      [canonize_fixed S, canonize_fixed (rho S), canonize_fixed (rho (rho S)),
        canonize_fixed (rho (rho (rho S))), canonize_fixed (tau S),
        canonize_fixed (rho (tau S)), canonize_fixed (rho (rho (tau S))),
        canonize_fixed (rho (rho (rho (tau S))))] :=
    @List.perm_append_comm Polyomino
      [canonize_fixed (tau S), canonize_fixed (rho (tau S)),
        canonize_fixed (rho (rho (tau S))),
        canonize_fixed (rho (rho (rho (tau S))))]
      [canonize_fixed S, canonize_fixed (rho S), canonize_fixed (rho (rho S)),
        canonize_fixed (rho (rho (rho S)))]
  rw [sort_eq_of_perm hperm]

theorem canonize_free_snd_transpose (S : Polyomino) :
    (canonize_free (Polyomino.transpose S)).2 = (canonize_free S).2 := by
  rw [canonize_free_snd, canonize_free_snd]
  rw [c0i_transpose, c90i_transpose, c180i_transpose, c270i_transpose,
    t0i_transpose, t90i_transpose, t180i_transpose, t270i_transpose,
    c0i_eq, c90i_eq, c180i_eq, c270i_eq, t0i_eq, t90i_eq, t180i_eq, t270i_eq]
  refine classifySpec_congr (iff_s0s1 S) (fun _ => eq_comm) ?_ ?_ (iff_s0s2 S)
  · exact or_congr eq_comm (iff_s0r2 S)
  · exact (or_congr (iff_s0r1 S) (iff_s0r3 S)).trans or_comm

theorem canonize_free_rotate (S : Polyomino) :
    canonize_free (Polyomino.rotate S) = canonize_free S :=
  Prod.ext (canonize_free_fst_rotate S) (canonize_free_snd_rotate S)

theorem canonize_free_transpose (S : Polyomino) :
    canonize_free (Polyomino.transpose S) = canonize_free S :=
  Prod.ext (canonize_free_fst_transpose S) (canonize_free_snd_transpose S)

end Polyomino

/-- C3: for every non-empty shape `S` with distinct cells, `canonize_free`
returns the same (free canonical form, symmetry class) pair on the
rotate-image and on the transpose-image of `S` as on `S` itself. -/
theorem claim_C3_congruence_invariance (S : Polyomino)
    (h1 : S ≠ []) (h2 : S.Nodup) :
    Polyomino.canonize_free (Polyomino.rotate S) = Polyomino.canonize_free S ∧
    Polyomino.canonize_free (Polyomino.transpose S) = Polyomino.canonize_free S :=
  ⟨Polyomino.canonize_free_rotate S, Polyomino.canonize_free_transpose S⟩

/-- C3 witness: the claim instantiated at the concrete L-tromino
`[(0, 0), (1, 0), (1, 1)]`. -/
theorem claim_C3_witness :
    ([⟨0, 0⟩, ⟨1, 0⟩, ⟨1, 1⟩] : Polyomino) ≠ [] ∧
    ([⟨0, 0⟩, ⟨1, 0⟩, ⟨1, 1⟩] : Polyomino).Nodup ∧
    (Polyomino.canonize_free (Polyomino.rotate [⟨0, 0⟩, ⟨1, 0⟩, ⟨1, 1⟩]) =
        Polyomino.canonize_free [⟨0, 0⟩, ⟨1, 0⟩, ⟨1, 1⟩] ∧
      Polyomino.canonize_free (Polyomino.transpose [⟨0, 0⟩, ⟨1, 0⟩, ⟨1, 1⟩]) =
        Polyomino.canonize_free [⟨0, 0⟩, ⟨1, 0⟩, ⟨1, 1⟩]) :=
  ⟨by decide, by decide,
    claim_C3_congruence_invariance [⟨0, 0⟩, ⟨1, 0⟩, ⟨1, 1⟩] (by decide) (by decide)⟩

/-! ### The association-list model of `BTreeMap` -/

theorem lookup_insertKV (m : List (Polyomino × PolyominoSymmetryGroup))
    (ek : Polyomino) (ev : PolyominoSymmetryGroup) (k : Polyomino) :
    lookupKV (insertKV m (ek, ev)) k =
      if k = ek then some ev else lookupKV m k := by
  induction m with
  | nil =>
    simp only [insertKV, lookupKV]
  | cons hd rest ih =>
    obtain ⟨k', w⟩ := hd
    simp only [insertKV]
    by_cases h1 : ek = k'
    · rw [if_pos h1]
      simp only [lookupKV]
      by_cases hk : k = k'
      · rw [if_pos hk, if_pos (hk.trans h1.symm)]
      · rw [if_neg hk, if_neg (fun hc => hk (hc.trans h1))]
        rw [if_neg hk]
    · rw [if_neg h1]
      by_cases h2 : (ek, ev).1 < k'
      · rw [if_pos h2]
        simp only [lookupKV]
      · rw [if_neg h2]
        simp only [lookupKV]
        by_cases hk : k = k'
        · rw [if_pos hk, if_neg (fun hc => h1 (hk.symm.trans hc).symm)]
          rw [if_pos hk]
        · rw [if_neg hk, if_neg hk, ih]

theorem mem_insertKV {m : List (Polyomino × PolyominoSymmetryGroup)}
    {e q : Polyomino × PolyominoSymmetryGroup} (h : q ∈ insertKV m e) :
    q ∈ m ∨ q.1 = e.1 := by
  induction m with
  | nil =>
    simp only [insertKV, List.mem_singleton] at h
    right
    rw [h]
  | cons hd rest ih =>
    obtain ⟨k', w⟩ := hd
    simp only [insertKV] at h
    by_cases h1 : e.1 = k'
    · rw [if_pos h1] at h
      rcases List.mem_cons.mp h with rfl | hm
      · right
        exact h1.symm
      · left
        exact List.mem_cons_of_mem _ hm
    · rw [if_neg h1] at h
      by_cases h2 : e.1 < k'
      · rw [if_pos h2] at h
        rcases List.mem_cons.mp h with rfl | hm
        · right
          rfl
        · left
          exact hm
      · rw [if_neg h2] at h
        rcases List.mem_cons.mp h with rfl | hm
        · left
          exact List.mem_cons_self _ _
        · rcases ih hm with hm' | he
          · left
            exact List.mem_cons_of_mem _ hm'
          · right
            exact he

theorem insertKV_sorted {m : List (Polyomino × PolyominoSymmetryGroup)}
    (e : Polyomino × PolyominoSymmetryGroup)
    (h : List.Pairwise (fun a b => a.1 < b.1) m) :
    List.Pairwise (fun a b => a.1 < b.1) (insertKV m e) := by
  induction m with
  | nil =>
    simp [insertKV]
  | cons hd rest ih =>
    obtain ⟨k', w⟩ := hd
    rw [List.pairwise_cons] at h
    obtain ⟨hhead, htail⟩ := h
    simp only [insertKV]
    by_cases h1 : e.1 = k'
    · rw [if_pos h1]
      exact List.Pairwise.cons (fun q hq => hhead q hq) htail
    · rw [if_neg h1]
      by_cases h2 : e.1 < k'
      · rw [if_pos h2]
        refine List.Pairwise.cons ?_ (List.Pairwise.cons hhead htail)
        intro q hq
        rcases List.mem_cons.mp hq with rfl | hm
        · exact h2
        · exact lt_trans h2 (hhead q hm)
      · rw [if_neg h2]
        refine List.Pairwise.cons ?_ (ih htail)
        intro q hq
        rcases mem_insertKV hq with hm | he
        · exact hhead q hm
        · have hk : k' < e.1 :=
            lt_of_le_of_ne (le_of_not_lt h2) fun hc => h1 hc.symm
          rw [he]
          exact hk

theorem foldl_insertKV_sorted (l : List (Polyomino × PolyominoSymmetryGroup)) :
    ∀ acc, List.Pairwise (fun a b => a.1 < b.1) acc →
      List.Pairwise (fun a b => a.1 < b.1) (l.foldl insertKV acc) := by
  induction l with
  | nil => exact fun acc h => h
  | cons e l' ih => exact fun acc h => ih _ (insertKV_sorted e h)

theorem buildMap_sorted (l : List (Polyomino × PolyominoSymmetryGroup)) :
    List.Pairwise (fun a b => a.1 < b.1) (buildMap l) :=
  foldl_insertKV_sorted l [] (by simp)

theorem mem_foldl_insertKV {q : Polyomino × PolyominoSymmetryGroup}
    (l : List (Polyomino × PolyominoSymmetryGroup)) :
    ∀ acc, q ∈ l.foldl insertKV acc → q ∈ acc ∨ ∃ p ∈ l, q.1 = p.1 := by
  induction l with
  | nil =>
    intro acc h
    exact Or.inl h
  | cons e l' ih =>
    intro acc h
    rcases ih _ h with hacc | ⟨p, hp, hk⟩
    · rcases mem_insertKV hacc with hm | he
      · exact Or.inl hm
      · exact Or.inr ⟨e, List.mem_cons_self _ _, he⟩
    · exact Or.inr ⟨p, List.mem_cons_of_mem _ hp, hk⟩

theorem mem_buildMap_keys {q : Polyomino × PolyominoSymmetryGroup}
    {l : List (Polyomino × PolyominoSymmetryGroup)} (h : q ∈ buildMap l) :
    ∃ p ∈ l, q.1 = p.1 := by
  rcases mem_foldl_insertKV l [] h with hacc | hex
  · simp at hacc
  · exact hex

theorem lookup_buildMap (l : List (Polyomino × PolyominoSymmetryGroup))
    (hfun : KeyFunctional l) (k : Polyomino) (w : PolyominoSymmetryGroup) :
    lookupKV (buildMap l) k = some w ↔ (k, w) ∈ l := by
  induction l using List.reverseRecOn with
  | nil =>
    simp [buildMap, lookupKV]
  | append_singleton l e ih =>
    obtain ⟨ek, ev⟩ := e
    have hstep : buildMap (l ++ [(ek, ev)]) = insertKV (buildMap l) (ek, ev) := by
      simp only [buildMap, List.foldl_append, List.foldl_cons, List.foldl_nil]
    have hfun' : KeyFunctional l := fun p hp q hq =>
      hfun p (List.mem_append_left _ hp) q (List.mem_append_left _ hq)
    rw [hstep, lookup_insertKV]
    by_cases hk : k = ek
    · subst hk
      rw [if_pos rfl]
      constructor
      · intro hw
        have hw' : ev = w := by
          injection hw
        rw [← hw']
        exact List.mem_append_right _ (List.mem_singleton.mpr rfl)
      · intro hmem
        have heq : w = ev := by
          have h1 : ((k, w) : Polyomino × PolyominoSymmetryGroup).1 =
              ((k, ev) : Polyomino × PolyominoSymmetryGroup).1 := rfl
          exact hfun (k, w) hmem (k, ev)
            (List.mem_append_right _ (List.mem_singleton.mpr rfl)) h1
        rw [heq]
    · rw [if_neg hk, ih hfun']
      constructor
      · intro hmem
        exact List.mem_append_left _ hmem
      · intro hmem
        rcases List.mem_append.mp hmem with hmem' | hmem'
        · exact hmem'
        · exfalso
          have := List.mem_singleton.mp hmem'
          apply hk
          have := congrArg Prod.fst this
          exact this

/-! ### The candidate stream -/

theorem mem_v {X : Polyomino} {z : Coord} {p : Polyomino × PolyominoSymmetryGroup}
    (h : p ∈ v X z) : z ∉ X ∧ p = Polyomino.canonize_free (X ++ [z]) := by
  by_cases hin : z ∈ X
  · simp [v, hin] at h
  · simp only [v, if_neg hin, List.mem_singleton] at h
    exact ⟨hin, h⟩

theorem mem_candidates {prev : List Polyomino}
    {p : Polyomino × PolyominoSymmetryGroup} (h : p ∈ candidates prev) :
    ∃ X ∈ prev, ∃ c : Coord, c ∉ X ∧ p = Polyomino.canonize_free (X ++ [c]) := by
  simp only [candidates, List.mem_flatMap] at h
  obtain ⟨X, hX, c, hc, h3⟩ := h
  simp only [List.mem_append] at h3
  rcases h3 with ((h3 | h3) | h3) | h3 <;>
    exact ⟨X, hX, _, (mem_v h3).1, (mem_v h3).2⟩

/-! ### The symmetry class is a function of the free canonical form -/

namespace Polyomino

theorem canonize_free_cf (X : Polyomino) :
    canonize_free (canonize_fixed X) = canonize_free X := by
  rw [canonize_free_eq, canonize_free_eq]
  unfold imageList
  simp only [c0i_eq, c90i_eq, c180i_eq, c270i_eq, t0i_eq, t90i_eq, t180i_eq,
    t270i_eq]
  rw [canonize_fixed_idem X, cf_rho_cf X, cf_tau_cf X,
    cf_congr_rho (cf_rho_cf X), cf_congr_rho (cf_congr_rho (cf_rho_cf X)),
    cf_congr_rho (cf_tau_cf X), cf_congr_rho (cf_congr_rho (cf_tau_cf X)),
    cf_congr_rho (cf_congr_rho (cf_congr_rho (cf_tau_cf X)))]

theorem canonize_free_rho (X : Polyomino) :
    canonize_free (rho X) = canonize_free X := by
  have h := canonize_free_rotate X
  rw [rotate_eq, canonize_free_cf] at h
  exact h

theorem canonize_free_tau (X : Polyomino) :
    canonize_free (tau X) = canonize_free X := by
  have h := canonize_free_transpose X
  rw [transpose_eq, canonize_free_cf] at h
  exact h

set_option maxHeartbeats 1000000 in
theorem canonize_free_image {X q : Polyomino} (hq : q ∈ imageList X) :
    canonize_free q = canonize_free X := by
  simp only [imageList, List.mem_cons, List.not_mem_nil, or_false] at hq
  rcases hq with rfl | rfl | rfl | rfl | rfl | rfl | rfl | rfl <;>
    simp only [c0i_eq, c90i_eq, c180i_eq, c270i_eq, t0i_eq, t90i_eq,
      t180i_eq, t270i_eq, canonize_free_cf, canonize_free_rho,
      canonize_free_tau]

theorem canonize_free_fst_mem (X : Polyomino) :
    (canonize_free X).1 ∈ imageList X := by
  rw [canonize_free_fst]
  cases e : List.insertionSort (· ≤ ·) (imageList X) with
  | nil =>
    exfalso
    have hp := List.perm_insertionSort ((· ≤ ·) : Polyomino → Polyomino → Prop)
      (imageList X)
    rw [e] at hp
    have hl := hp.length_eq
    simp [imageList] at hl
  | cons a rest =>
    have ha : a ∈ List.insertionSort (· ≤ ·) (imageList X) := by
      rw [e]
      exact List.mem_cons_self a rest
    exact (List.perm_insertionSort _ _).mem_iff.mp ha

theorem canonize_free_fst_fixpoint (X : Polyomino) :
    canonize_free ((canonize_free X).1) = canonize_free X :=
  canonize_free_image (canonize_free_fst_mem X)

theorem canonize_free_determined {A B : Polyomino}
    (h : (canonize_free A).1 = (canonize_free B).1) :
    canonize_free A = canonize_free B := by
  have hA := canonize_free_fst_fixpoint A
  have hB := canonize_free_fst_fixpoint B
  rw [← hA, ← hB, h]

end Polyomino

theorem candidates_functional (prev : List Polyomino) :
    KeyFunctional (candidates prev) := by
  intro p hp q hq hk
  obtain ⟨X, hX, c, hc, hpe⟩ := mem_candidates hp
  obtain ⟨Y, hY, d, hd, hqe⟩ := mem_candidates hq
  subst hpe
  subst hqe
  exact congrArg Prod.snd (Polyomino.canonize_free_determined hk)

/-- C2: for `n ≥ 2`, generation `n` is exactly the mapping obtained from
the candidate stream (every previous shape, every cell, the four offsets,
occupancy-filtered, classified by `canonize_free`): a key maps to a value
precisely when that pair occurs among the candidates, so repeated insertion
of congruent candidates changes nothing; moreover congruent candidates
always carry identical key-value pairs (the stream is key-functional). -/
theorem claim_C2_growth_map (n : Nat) (hn : 2 ≤ n) (k : Polyomino)
    (w : PolyominoSymmetryGroup) :
    (lookupKV (genMap n) k = some w ↔
      (k, w) ∈ candidates (genShapes (n - 1))) ∧
    KeyFunctional (candidates (genShapes (n - 1))) :=
  ⟨lookup_buildMap _ (candidates_functional _) k w, candidates_functional _⟩

/-- C2 witness: the claim instantiated at `n = 2` with the domino's free
canonical form and its symmetry class. -/
theorem claim_C2_witness :
    2 ≤ 2 ∧
    ((lookupKV (genMap 2) [⟨0, 0⟩, ⟨0, 1⟩] =
        some PolyominoSymmetryGroup.Rotation2FoldMirror90 ↔
      (([⟨0, 0⟩, ⟨0, 1⟩] : Polyomino),
        PolyominoSymmetryGroup.Rotation2FoldMirror90) ∈
          candidates (genShapes 1)) ∧
    KeyFunctional (candidates (genShapes 1))) :=
  ⟨by norm_num, claim_C2_growth_map 2 (by norm_num) _ _⟩

/-- C9: for every size `n`, the serialized listing (the entry order of
generation `n`'s map, which `save` writes in iteration order) is strictly
ascending in the keys' cell sequences under the element-wise coordinate
lexicographic order. -/
theorem claim_C9_output_sorted (n : Nat) :
    List.Pairwise (fun a b => List.Lex Coord.lt a.1 b.1) (genMap n) :=
  buildMap_sorted _

/-! ### The growth-loop invariant -/

theorem Coord.rotate_injective : Function.Injective Coord.rotate := by
  rintro ⟨ax, ay⟩ ⟨bx, byy⟩ h
  simp only [Coord.rotate, Coord.mk.injEq] at h ⊢
  omega

theorem Coord.transpose_injective : Function.Injective Coord.transpose := by
  rintro ⟨ax, ay⟩ ⟨bx, byy⟩ h
  simp only [Coord.transpose, Coord.mk.injEq] at h ⊢
  omega

namespace Polyomino

set_option maxHeartbeats 1000000 in
theorem imageList_mem_spec {X q : Polyomino} (hq : q ∈ imageList X) :
    q.length = X.length ∧ (X.Nodup → q.Nodup) ∧ canonize_fixed q = q := by
  have base : ∀ Z : Polyomino, Z.length = X.length → (X.Nodup → Z.Nodup) →
      ((canonize_fixed Z).length = X.length ∧
        (X.Nodup → (canonize_fixed Z).Nodup) ∧
        canonize_fixed (canonize_fixed Z) = canonize_fixed Z) :=
    fun Z h1 h2 => ⟨(canonize_fixed_length Z).trans h1,
      fun hn => canonize_fixed_nodup (h2 hn), canonize_fixed_idem Z⟩
  simp only [imageList, List.mem_cons, List.not_mem_nil, or_false] at hq
  rcases hq with rfl | rfl | rfl | rfl | rfl | rfl | rfl | rfl
  · rw [c0i_eq]
    exact base X rfl id
  · rw [c90i_eq]
    exact base (rho X) (by simp [rho]) fun h => h.map Coord.rotate_injective
  · rw [c180i_eq]
    exact base (rho (rho X)) (by simp [rho]) fun h =>
      (h.map Coord.rotate_injective).map Coord.rotate_injective
  · rw [c270i_eq]
    exact base (rho (rho (rho X))) (by simp [rho]) fun h =>
      ((h.map Coord.rotate_injective).map Coord.rotate_injective).map
        Coord.rotate_injective
  · rw [t0i_eq]
    exact base (tau X) (by simp [tau]) fun h => h.map Coord.transpose_injective
  · rw [t90i_eq]
    exact base (rho (tau X)) (by simp [rho, tau]) fun h =>
      (h.map Coord.transpose_injective).map Coord.rotate_injective
  · rw [t180i_eq]
    exact base (rho (rho (tau X))) (by simp [rho, tau]) fun h =>
      ((h.map Coord.transpose_injective).map Coord.rotate_injective).map
        Coord.rotate_injective
  · rw [t270i_eq]
    exact base (rho (rho (rho (tau X)))) (by simp [rho, tau]) fun h =>
      (((h.map Coord.transpose_injective).map Coord.rotate_injective).map
        Coord.rotate_injective).map Coord.rotate_injective

end Polyomino

theorem stepMap_keys_spec {prev : List Polyomino} {m : Nat}
    (hprev : ∀ X ∈ prev, X.length = m ∧ X.Nodup) :
    ∀ e ∈ stepMap prev, e.1.length = m + 1 ∧ e.1.Nodup ∧
      Polyomino.canonize_fixed e.1 = e.1 := by
  intro e he
  obtain ⟨pr, hpr, hkey⟩ := mem_buildMap_keys he
  obtain ⟨X, hX, c, hc, rfl⟩ := mem_candidates hpr
  obtain ⟨hlen, hnd⟩ := hprev X hX
  have hXc_len : (X ++ [c]).length = m + 1 := by simp [hlen]
  have hXc_nd : (X ++ [c]).Nodup := by
    rw [List.nodup_append]
    exact ⟨hnd, List.nodup_singleton c, by simpa using hc⟩
  have hspec := Polyomino.imageList_mem_spec
    (Polyomino.canonize_free_fst_mem (X ++ [c]))
  rw [hkey]
  exact ⟨hspec.1.trans hXc_len, hspec.2.1 hXc_nd, hspec.2.2⟩

theorem genShapes_spec : ∀ n : Nat, 1 ≤ n → ∀ p ∈ genShapes n,
    p.length = n ∧ p.Nodup := by
  intro n
  induction n with
  | zero => exact fun h => absurd h (by omega)
  | succ m ih =>
    rcases m with _ | m'
    · intro _ p hp
      simp only [genShapes, List.mem_singleton] at hp
      subst hp
      exact ⟨rfl, by decide⟩
    · intro _ p hp
      simp only [genShapes] at hp
      obtain ⟨q, hq, rfl⟩ := List.mem_map.mp hp
      have hs := stepMap_keys_spec (fun X hX => ih (by omega) X hX) q hq
      exact ⟨hs.1, hs.2.1⟩

/-- C10: at every size `n ≥ 2`, every key of generation `n` consists of
exactly `n` distinct cells and is a fixed point of `canonize_fixed` — the
shapes carried into the next iteration are already in fixed canonical
form. -/
theorem claim_C10_generation_invariant (n : Nat) (hn : 2 ≤ n) :
    ∀ e ∈ genMap n, e.1.length = n ∧ e.1.Nodup ∧
      Polyomino.canonize_fixed e.1 = e.1 := by
  intro e he
  have hprev : ∀ X ∈ genShapes (n - 1), X.length = n - 1 ∧ X.Nodup :=
    genShapes_spec (n - 1) (by omega)
  have hs := stepMap_keys_spec hprev e he
  have hm : n - 1 + 1 = n := by omega
  rw [hm] at hs
  exact hs

/-- C10 witness: the claim instantiated at `n = 2` and the single entry of
generation 2. -/
theorem claim_C10_witness :
    2 ≤ 2 ∧
    (([⟨0, 0⟩, ⟨0, 1⟩] : Polyomino),
      PolyominoSymmetryGroup.Rotation2FoldMirror90) ∈ genMap 2 ∧
    (([⟨0, 0⟩, ⟨0, 1⟩] : Polyomino).length = 2 ∧
      ([⟨0, 0⟩, ⟨0, 1⟩] : Polyomino).Nodup ∧
      Polyomino.canonize_fixed [⟨0, 0⟩, ⟨0, 1⟩] = [⟨0, 0⟩, ⟨0, 1⟩]) :=
  ⟨by norm_num, by decide,
    claim_C10_generation_invariant 2 (by norm_num)
      (([⟨0, 0⟩, ⟨0, 1⟩] : Polyomino),
        PolyominoSymmetryGroup.Rotation2FoldMirror90) (by decide)⟩

/-! ### Concrete runs of the growth engine -/

/-- C6 counterexample: with `up_to = 2` the single entry of the size-2
generation (the contents of `2.json`) has symmetry-class value
`Rotation2FoldMirror90`, not `All` as the claim states — the 1×2 domino is
not invariant under a quarter rotation, and the code's own decision tree
(which the spec's §4.3 endorses) classifies it accordingly. -/
theorem claim_C6_counterexample :
    genMap 2 =
      [([⟨0, 0⟩, ⟨0, 1⟩], PolyominoSymmetryGroup.Rotation2FoldMirror90)] ∧
    PolyominoSymmetryGroup.Rotation2FoldMirror90 ≠ PolyominoSymmetryGroup.All :=
  ⟨by decide, by decide⟩

/-- C6 (amended): with `up_to = 2`, the size-2 generation contains exactly
one entry; its key is the free canonical form of the domino (the minimal
representative under the stated ordering, which renders as `"0,0,0,1"`),
and its symmetry-class value is `Rotation2FoldMirror90`. -/
theorem claim_C6_amended :
    (genMap 2).length = 1 ∧
    genMap 2 = [((Polyomino.canonize_free [⟨0, 0⟩, ⟨1, 0⟩]).1,
      PolyominoSymmetryGroup.Rotation2FoldMirror90)] ∧
    Polyomino.render (Polyomino.canonize_free [⟨0, 0⟩, ⟨1, 0⟩]).1 = "0,0,0,1" :=
  ⟨by decide, by decide, by decide⟩

/-! ### Concrete generations, one growth step at a time.

The candidate stream of a growth step is verified per previous shape
(`candOf`), and the steps are chained through the literal generation lists
`gen2s` .. `gen5s`; this keeps every single kernel evaluation small. -/

theorem candidates_nil : candidates [] = [] := rfl

theorem candidates_cons (X : Polyomino) (l : List Polyomino) :
    candidates (X :: l) = candOf X ++ candidates l := rfl

set_option maxRecDepth 100000 in
set_option maxHeartbeats 16000000 in
theorem c5ch0 : candOf [⟨0, 0⟩, ⟨0, 1⟩, ⟨0, 2⟩, ⟨0, 3⟩] =
    [([⟨0, 0⟩, ⟨0, 1⟩, ⟨0, 2⟩, ⟨0, 3⟩, ⟨1, 0⟩], PolyominoSymmetryGroup.None),
    ([⟨0, 0⟩, ⟨0, 1⟩, ⟨0, 2⟩, ⟨0, 3⟩, ⟨1, 0⟩], PolyominoSymmetryGroup.None),
    ([⟨0, 0⟩, ⟨0, 1⟩, ⟨0, 2⟩, ⟨0, 3⟩, ⟨0, 4⟩], PolyominoSymmetryGroup.Rotation2FoldMirror90),
    ([⟨0, 0⟩, ⟨0, 1⟩, ⟨0, 2⟩, ⟨0, 3⟩, ⟨1, 1⟩], PolyominoSymmetryGroup.None),
    ([⟨0, 0⟩, ⟨0, 1⟩, ⟨0, 2⟩, ⟨0, 3⟩, ⟨1, 1⟩], PolyominoSymmetryGroup.None),
    ([⟨0, 0⟩, ⟨0, 1⟩, ⟨0, 2⟩, ⟨0, 3⟩, ⟨1, 1⟩], PolyominoSymmetryGroup.None),
    ([⟨0, 0⟩, ⟨0, 1⟩, ⟨0, 2⟩, ⟨0, 3⟩, ⟨1, 1⟩], PolyominoSymmetryGroup.None),
    ([⟨0, 0⟩, ⟨0, 1⟩, ⟨0, 2⟩, ⟨0, 3⟩, ⟨1, 0⟩], PolyominoSymmetryGroup.None),
    ([⟨0, 0⟩, ⟨0, 1⟩, ⟨0, 2⟩, ⟨0, 3⟩, ⟨1, 0⟩], PolyominoSymmetryGroup.None),
    ([⟨0, 0⟩, ⟨0, 1⟩, ⟨0, 2⟩, ⟨0, 3⟩, ⟨0, 4⟩], PolyominoSymmetryGroup.Rotation2FoldMirror90)] := by decide

set_option maxRecDepth 100000 in
set_option maxHeartbeats 16000000 in
theorem c5ch1 : candOf [⟨0, 0⟩, ⟨0, 1⟩, ⟨0, 2⟩, ⟨1, 0⟩] =
    [([⟨0, 0⟩, ⟨0, 1⟩, ⟨0, 2⟩, ⟨1, 1⟩, ⟨2, 1⟩], PolyominoSymmetryGroup.Mirror90),
    ([⟨0, 0⟩, ⟨0, 1⟩, ⟨0, 2⟩, ⟨0, 3⟩, ⟨1, 1⟩], PolyominoSymmetryGroup.None),
    ([⟨0, 0⟩, ⟨0, 1⟩, ⟨0, 2⟩, ⟨1, 0⟩, ⟨1, 1⟩], PolyominoSymmetryGroup.None),
    ([⟨0, 0⟩, ⟨0, 1⟩, ⟨1, 1⟩, ⟨1, 2⟩, ⟨2, 1⟩], PolyominoSymmetryGroup.None),
    ([⟨0, 0⟩, ⟨0, 1⟩, ⟨0, 2⟩, ⟨1, 0⟩, ⟨1, 2⟩], PolyominoSymmetryGroup.Mirror90),
    ([⟨0, 0⟩, ⟨0, 1⟩, ⟨1, 1⟩, ⟨2, 1⟩, ⟨2, 2⟩], PolyominoSymmetryGroup.Rotation2Fold),
    ([⟨0, 0⟩, ⟨0, 1⟩, ⟨0, 2⟩, ⟨0, 3⟩, ⟨1, 0⟩], PolyominoSymmetryGroup.None),
    ([⟨0, 0⟩, ⟨0, 1⟩, ⟨0, 2⟩, ⟨1, 0⟩, ⟨2, 0⟩], PolyominoSymmetryGroup.Mirror45),
    ([⟨0, 0⟩, ⟨0, 1⟩, ⟨0, 2⟩, ⟨1, 0⟩, ⟨1, 1⟩], PolyominoSymmetryGroup.None),
    ([⟨0, 0⟩, ⟨0, 1⟩, ⟨0, 2⟩, ⟨1, 2⟩, ⟨1, 3⟩], PolyominoSymmetryGroup.None)] := by decide

set_option maxRecDepth 100000 in
set_option maxHeartbeats 16000000 in
theorem c5ch2 : candOf [⟨0, 0⟩, ⟨0, 1⟩, ⟨0, 2⟩, ⟨1, 1⟩] =
    [([⟨0, 0⟩, ⟨0, 1⟩, ⟨0, 2⟩, ⟨1, 0⟩, ⟨1, 1⟩], PolyominoSymmetryGroup.None),
    ([⟨0, 0⟩, ⟨0, 1⟩, ⟨1, 1⟩, ⟨1, 2⟩, ⟨2, 1⟩], PolyominoSymmetryGroup.None),
    ([⟨0, 0⟩, ⟨0, 1⟩, ⟨0, 2⟩, ⟨0, 3⟩, ⟨1, 1⟩], PolyominoSymmetryGroup.None),
    ([⟨0, 1⟩, ⟨1, 0⟩, ⟨1, 1⟩, ⟨1, 2⟩, ⟨2, 1⟩], PolyominoSymmetryGroup.All),
    ([⟨0, 0⟩, ⟨0, 1⟩, ⟨0, 2⟩, ⟨1, 0⟩, ⟨1, 1⟩], PolyominoSymmetryGroup.None),
    ([⟨0, 0⟩, ⟨0, 1⟩, ⟨1, 1⟩, ⟨1, 2⟩, ⟨2, 1⟩], PolyominoSymmetryGroup.None),
    ([⟨0, 0⟩, ⟨0, 1⟩, ⟨0, 2⟩, ⟨0, 3⟩, ⟨1, 1⟩], PolyominoSymmetryGroup.None),
    ([⟨0, 0⟩, ⟨0, 1⟩, ⟨0, 2⟩, ⟨1, 1⟩, ⟨2, 1⟩], PolyominoSymmetryGroup.Mirror90),
    ([⟨0, 0⟩, ⟨0, 1⟩, ⟨0, 2⟩, ⟨1, 0⟩, ⟨1, 1⟩], PolyominoSymmetryGroup.None),
    ([⟨0, 0⟩, ⟨0, 1⟩, ⟨0, 2⟩, ⟨1, 0⟩, ⟨1, 1⟩], PolyominoSymmetryGroup.None)] := by decide

set_option maxRecDepth 100000 in
set_option maxHeartbeats 16000000 in
theorem c5ch3 : candOf [⟨0, 0⟩, ⟨0, 1⟩, ⟨1, 0⟩, ⟨1, 1⟩] =
    [([⟨0, 0⟩, ⟨0, 1⟩, ⟨0, 2⟩, ⟨1, 0⟩, ⟨1, 1⟩], PolyominoSymmetryGroup.None),
    ([⟨0, 0⟩, ⟨0, 1⟩, ⟨0, 2⟩, ⟨1, 0⟩, ⟨1, 1⟩], PolyominoSymmetryGroup.None),
    ([⟨0, 0⟩, ⟨0, 1⟩, ⟨0, 2⟩, ⟨1, 0⟩, ⟨1, 1⟩], PolyominoSymmetryGroup.None),
    ([⟨0, 0⟩, ⟨0, 1⟩, ⟨0, 2⟩, ⟨1, 0⟩, ⟨1, 1⟩], PolyominoSymmetryGroup.None),
    ([⟨0, 0⟩, ⟨0, 1⟩, ⟨0, 2⟩, ⟨1, 0⟩, ⟨1, 1⟩], PolyominoSymmetryGroup.None),
    ([⟨0, 0⟩, ⟨0, 1⟩, ⟨0, 2⟩, ⟨1, 0⟩, ⟨1, 1⟩], PolyominoSymmetryGroup.None),
    ([⟨0, 0⟩, ⟨0, 1⟩, ⟨0, 2⟩, ⟨1, 0⟩, ⟨1, 1⟩], PolyominoSymmetryGroup.None),
    ([⟨0, 0⟩, ⟨0, 1⟩, ⟨0, 2⟩, ⟨1, 0⟩, ⟨1, 1⟩], PolyominoSymmetryGroup.None)] := by decide

set_option maxRecDepth 100000 in
set_option maxHeartbeats 16000000 in
theorem c5ch4 : candOf [⟨0, 0⟩, ⟨0, 1⟩, ⟨1, 1⟩, ⟨1, 2⟩] =
    [([⟨0, 0⟩, ⟨0, 1⟩, ⟨0, 2⟩, ⟨1, 0⟩, ⟨1, 1⟩], PolyominoSymmetryGroup.None),
    ([⟨0, 0⟩, ⟨0, 1⟩, ⟨1, 1⟩, ⟨1, 2⟩, ⟨2, 2⟩], PolyominoSymmetryGroup.Mirror45),
    ([⟨0, 0⟩, ⟨0, 1⟩, ⟨0, 2⟩, ⟨1, 2⟩, ⟨1, 3⟩], PolyominoSymmetryGroup.None),
    ([⟨0, 0⟩, ⟨0, 1⟩, ⟨1, 1⟩, ⟨1, 2⟩, ⟨2, 1⟩], PolyominoSymmetryGroup.None),
    ([⟨0, 0⟩, ⟨0, 1⟩, ⟨0, 2⟩, ⟨1, 0⟩, ⟨1, 1⟩], PolyominoSymmetryGroup.None),
    ([⟨0, 0⟩, ⟨0, 1⟩, ⟨1, 1⟩, ⟨1, 2⟩, ⟨2, 1⟩], PolyominoSymmetryGroup.None),
    ([⟨0, 0⟩, ⟨0, 1⟩, ⟨0, 2⟩, ⟨1, 0⟩, ⟨1, 1⟩], PolyominoSymmetryGroup.None),
    ([⟨0, 0⟩, ⟨0, 1⟩, ⟨1, 1⟩, ⟨1, 2⟩, ⟨2, 2⟩], PolyominoSymmetryGroup.Mirror45),
    ([⟨0, 0⟩, ⟨0, 1⟩, ⟨0, 2⟩, ⟨1, 0⟩, ⟨1, 1⟩], PolyominoSymmetryGroup.None),
    ([⟨0, 0⟩, ⟨0, 1⟩, ⟨0, 2⟩, ⟨1, 2⟩, ⟨1, 3⟩], PolyominoSymmetryGroup.None)] := by decide

set_option maxRecDepth 100000 in
set_option maxHeartbeats 16000000 in
theorem c6ch0 : candOf [⟨0, 0⟩, ⟨0, 1⟩, ⟨0, 2⟩, ⟨0, 3⟩, ⟨0, 4⟩] =
    [([⟨0, 0⟩, ⟨0, 1⟩, ⟨0, 2⟩, ⟨0, 3⟩, ⟨0, 4⟩, ⟨1, 0⟩], PolyominoSymmetryGroup.None),
    ([⟨0, 0⟩, ⟨0, 1⟩, ⟨0, 2⟩, ⟨0, 3⟩, ⟨0, 4⟩, ⟨1, 0⟩], PolyominoSymmetryGroup.None),
    ([⟨0, 0⟩, ⟨0, 1⟩, ⟨0, 2⟩, ⟨0, 3⟩, ⟨0, 4⟩, ⟨0, 5⟩], PolyominoSymmetryGroup.Rotation2FoldMirror90),
    ([⟨0, 0⟩, ⟨0, 1⟩, ⟨0, 2⟩, ⟨0, 3⟩, ⟨0, 4⟩, ⟨1, 1⟩], PolyominoSymmetryGroup.None),
    ([⟨0, 0⟩, ⟨0, 1⟩, ⟨0, 2⟩, ⟨0, 3⟩, ⟨0, 4⟩, ⟨1, 1⟩], PolyominoSymmetryGroup.None),
    ([⟨0, 0⟩, ⟨0, 1⟩, ⟨0, 2⟩, ⟨0, 3⟩, ⟨0, 4⟩, ⟨1, 2⟩], PolyominoSymmetryGroup.Mirror90),
    ([⟨0, 0⟩, ⟨0, 1⟩, ⟨0, 2⟩, ⟨0, 3⟩, ⟨0, 4⟩, ⟨1, 2⟩], PolyominoSymmetryGroup.Mirror90),
    ([⟨0, 0⟩, ⟨0, 1⟩, ⟨0, 2⟩, ⟨0, 3⟩, ⟨0, 4⟩, ⟨1, 1⟩], PolyominoSymmetryGroup.None),
    ([⟨0, 0⟩, ⟨0, 1⟩, ⟨0, 2⟩, ⟨0, 3⟩, ⟨0, 4⟩, ⟨1, 1⟩], PolyominoSymmetryGroup.None),
    ([⟨0, 0⟩, ⟨0, 1⟩, ⟨0, 2⟩, ⟨0, 3⟩, ⟨0, 4⟩, ⟨1, 0⟩], PolyominoSymmetryGroup.None),
    ([⟨0, 0⟩, ⟨0, 1⟩, ⟨0, 2⟩, ⟨0, 3⟩, ⟨0, 4⟩, ⟨1, 0⟩], PolyominoSymmetryGroup.None),
    ([⟨0, 0⟩, ⟨0, 1⟩, ⟨0, 2⟩, ⟨0, 3⟩, ⟨0, 4⟩, ⟨0, 5⟩], PolyominoSymmetryGroup.Rotation2FoldMirror90)] := by decide

set_option maxRecDepth 100000 in
set_option maxHeartbeats 16000000 in
theorem c6ch1 : candOf [⟨0, 0⟩, ⟨0, 1⟩, ⟨0, 2⟩, ⟨0, 3⟩, ⟨1, 0⟩] =
    [([⟨0, 0⟩, ⟨0, 1⟩, ⟨0, 2⟩, ⟨1, 1⟩, ⟨2, 1⟩, ⟨3, 1⟩], PolyominoSymmetryGroup.Mirror90),
    ([⟨0, 0⟩, ⟨0, 1⟩, ⟨0, 2⟩, ⟨0, 3⟩, ⟨0, 4⟩, ⟨1, 1⟩], PolyominoSymmetryGroup.None),
    ([⟨0, 0⟩, ⟨0, 1⟩, ⟨0, 2⟩, ⟨0, 3⟩, ⟨1, 0⟩, ⟨1, 1⟩], PolyominoSymmetryGroup.None),
    ([⟨0, 0⟩, ⟨0, 1⟩, ⟨1, 1⟩, ⟨1, 2⟩, ⟨2, 1⟩, ⟨3, 1⟩], PolyominoSymmetryGroup.None),
    ([⟨0, 0⟩, ⟨0, 1⟩, ⟨0, 2⟩, ⟨0, 3⟩, ⟨1, 0⟩, ⟨1, 2⟩], PolyominoSymmetryGroup.None),
    ([⟨0, 0⟩, ⟨0, 1⟩, ⟨1, 1⟩, ⟨2, 1⟩, ⟨2, 2⟩, ⟨3, 1⟩], PolyominoSymmetryGroup.None),
    ([⟨0, 0⟩, ⟨0, 1⟩, ⟨0, 2⟩, ⟨0, 3⟩, ⟨1, 0⟩, ⟨1, 3⟩], PolyominoSymmetryGroup.Mirror90),
    ([⟨0, 0⟩, ⟨0, 1⟩, ⟨1, 1⟩, ⟨2, 1⟩, ⟨3, 1⟩, ⟨3, 2⟩], PolyominoSymmetryGroup.Rotation2Fold),
    ([⟨0, 0⟩, ⟨0, 1⟩, ⟨0, 2⟩, ⟨0, 3⟩, ⟨0, 4⟩, ⟨1, 0⟩], PolyominoSymmetryGroup.None),
    ([⟨0, 0⟩, ⟨0, 1⟩, ⟨0, 2⟩, ⟨0, 3⟩, ⟨1, 0⟩, ⟨2, 0⟩], PolyominoSymmetryGroup.None),
    ([⟨0, 0⟩, ⟨0, 1⟩, ⟨0, 2⟩, ⟨0, 3⟩, ⟨1, 0⟩, ⟨1, 1⟩], PolyominoSymmetryGroup.None),
    ([⟨0, 0⟩, ⟨0, 1⟩, ⟨0, 2⟩, ⟨0, 3⟩, ⟨1, 3⟩, ⟨1, 4⟩], PolyominoSymmetryGroup.None)] := by decide

set_option maxRecDepth 100000 in
set_option maxHeartbeats 16000000 in
theorem c6ch2 : candOf [⟨0, 0⟩, ⟨0, 1⟩, ⟨0, 2⟩, ⟨0, 3⟩, ⟨1, 1⟩] =
    [([⟨0, 0⟩, ⟨0, 1⟩, ⟨0, 2⟩, ⟨0, 3⟩, ⟨1, 0⟩, ⟨1, 1⟩], PolyominoSymmetryGroup.None),
    ([⟨0, 0⟩, ⟨0, 1⟩, ⟨1, 1⟩, ⟨1, 2⟩, ⟨2, 1⟩, ⟨3, 1⟩], PolyominoSymmetryGroup.None),
    ([⟨0, 0⟩, ⟨0, 1⟩, ⟨0, 2⟩, ⟨0, 3⟩, ⟨0, 4⟩, ⟨1, 2⟩], PolyominoSymmetryGroup.Mirror90),
    ([⟨0, 1⟩, ⟨1, 0⟩, ⟨1, 1⟩, ⟨1, 2⟩, ⟨1, 3⟩, ⟨2, 1⟩], PolyominoSymmetryGroup.Mirror90),
    ([⟨0, 0⟩, ⟨0, 1⟩, ⟨0, 2⟩, ⟨0, 3⟩, ⟨1, 1⟩, ⟨1, 2⟩], PolyominoSymmetryGroup.Mirror90),
    ([⟨0, 1⟩, ⟨1, 0⟩, ⟨1, 1⟩, ⟨1, 2⟩, ⟨1, 3⟩, ⟨2, 2⟩], PolyominoSymmetryGroup.Rotation2Fold),
    ([⟨0, 0⟩, ⟨0, 1⟩, ⟨0, 2⟩, ⟨0, 3⟩, ⟨1, 0⟩, ⟨1, 2⟩], PolyominoSymmetryGroup.None),
    ([⟨0, 0⟩, ⟨0, 1⟩, ⟨1, 1⟩, ⟨2, 1⟩, ⟨2, 2⟩, ⟨3, 1⟩], PolyominoSymmetryGroup.None),
    ([⟨0, 0⟩, ⟨0, 1⟩, ⟨0, 2⟩, ⟨0, 3⟩, ⟨0, 4⟩, ⟨1, 1⟩], PolyominoSymmetryGroup.None),
    ([⟨0, 0⟩, ⟨0, 1⟩, ⟨0, 2⟩, ⟨0, 3⟩, ⟨1, 1⟩, ⟨2, 1⟩], PolyominoSymmetryGroup.None),
    ([⟨0, 0⟩, ⟨0, 1⟩, ⟨0, 2⟩, ⟨0, 3⟩, ⟨1, 1⟩, ⟨1, 2⟩], PolyominoSymmetryGroup.Mirror90),
    ([⟨0, 0⟩, ⟨0, 1⟩, ⟨0, 2⟩, ⟨0, 3⟩, ⟨1, 0⟩, ⟨1, 1⟩], PolyominoSymmetryGroup.None)] := by decide

set_option maxRecDepth 100000 in
set_option maxHeartbeats 16000000 in
theorem c6ch3 : candOf [⟨0, 0⟩, ⟨0, 1⟩, ⟨0, 2⟩, ⟨1, 0⟩, ⟨1, 1⟩] =
    [([⟨0, 0⟩, ⟨0, 1⟩, ⟨0, 2⟩, ⟨1, 0⟩, ⟨1, 1⟩, ⟨2, 1⟩], PolyominoSymmetryGroup.None),
    ([⟨0, 0⟩, ⟨0, 1⟩, ⟨0, 2⟩, ⟨0, 3⟩, ⟨1, 1⟩, ⟨1, 2⟩], PolyominoSymmetryGroup.Mirror90),
    ([⟨0, 0⟩, ⟨0, 1⟩, ⟨1, 0⟩, ⟨1, 1⟩, ⟨1, 2⟩, ⟨2, 1⟩], PolyominoSymmetryGroup.Mirror45),
    ([⟨0, 0⟩, ⟨0, 1⟩, ⟨0, 2⟩, ⟨1, 0⟩, ⟨1, 1⟩, ⟨1, 2⟩], PolyominoSymmetryGroup.Rotation2FoldMirror90),
    ([⟨0, 0⟩, ⟨0, 1⟩, ⟨1, 0⟩, ⟨1, 1⟩, ⟨1, 2⟩, ⟨2, 2⟩], PolyominoSymmetryGroup.None),
    ([⟨0, 0⟩, ⟨0, 1⟩, ⟨0, 2⟩, ⟨0, 3⟩, ⟨1, 0⟩, ⟨1, 1⟩], PolyominoSymmetryGroup.None),
    ([⟨0, 0⟩, ⟨0, 1⟩, ⟨0, 2⟩, ⟨1, 0⟩, ⟨1, 1⟩, ⟨2, 0⟩], PolyominoSymmetryGroup.Mirror45),
    ([⟨0, 0⟩, ⟨0, 1⟩, ⟨0, 2⟩, ⟨1, 1⟩, ⟨1, 2⟩, ⟨1, 3⟩], PolyominoSymmetryGroup.Rotation2Fold),
    ([⟨0, 0⟩, ⟨0, 1⟩, ⟨0, 2⟩, ⟨1, 0⟩, ⟨1, 1⟩, ⟨2, 1⟩], PolyominoSymmetryGroup.None),
    ([⟨0, 0⟩, ⟨0, 1⟩, ⟨0, 2⟩, ⟨1, 0⟩, ⟨1, 1⟩, ⟨1, 2⟩], PolyominoSymmetryGroup.Rotation2FoldMirror90)] := by decide

set_option maxRecDepth 100000 in
set_option maxHeartbeats 16000000 in
theorem c6ch4 : candOf [⟨0, 0⟩, ⟨0, 1⟩, ⟨0, 2⟩, ⟨1, 0⟩, ⟨1, 2⟩] =
    [([⟨0, 0⟩, ⟨0, 1⟩, ⟨0, 2⟩, ⟨1, 1⟩, ⟨2, 0⟩, ⟨2, 1⟩], PolyominoSymmetryGroup.None),
    ([⟨0, 0⟩, ⟨0, 1⟩, ⟨0, 2⟩, ⟨0, 3⟩, ⟨1, 0⟩, ⟨1, 2⟩], PolyominoSymmetryGroup.None),
    ([⟨0, 0⟩, ⟨0, 1⟩, ⟨0, 2⟩, ⟨1, 0⟩, ⟨1, 1⟩, ⟨1, 2⟩], PolyominoSymmetryGroup.Rotation2FoldMirror90),
    ([⟨0, 0⟩, ⟨0, 1⟩, ⟨1, 1⟩, ⟨1, 2⟩, ⟨2, 0⟩, ⟨2, 1⟩], PolyominoSymmetryGroup.Mirror90),
    ([⟨0, 0⟩, ⟨0, 1⟩, ⟨0, 2⟩, ⟨1, 1⟩, ⟨2, 0⟩, ⟨2, 1⟩], PolyominoSymmetryGroup.None),
    ([⟨0, 0⟩, ⟨0, 1⟩, ⟨0, 2⟩, ⟨0, 3⟩, ⟨1, 0⟩, ⟨1, 2⟩], PolyominoSymmetryGroup.None),
    ([⟨0, 0⟩, ⟨0, 1⟩, ⟨0, 2⟩, ⟨1, 0⟩, ⟨1, 2⟩, ⟨2, 0⟩], PolyominoSymmetryGroup.None),
    ([⟨0, 0⟩, ⟨0, 1⟩, ⟨0, 2⟩, ⟨1, 0⟩, ⟨1, 1⟩, ⟨1, 2⟩], PolyominoSymmetryGroup.Rotation2FoldMirror90),
    ([⟨0, 0⟩, ⟨0, 1⟩, ⟨0, 2⟩, ⟨1, 0⟩, ⟨1, 2⟩, ⟨1, 3⟩], PolyominoSymmetryGroup.None),
    ([⟨0, 0⟩, ⟨0, 1⟩, ⟨0, 2⟩, ⟨1, 0⟩, ⟨1, 2⟩, ⟨2, 0⟩], PolyominoSymmetryGroup.None),
    ([⟨0, 0⟩, ⟨0, 1⟩, ⟨0, 2⟩, ⟨1, 0⟩, ⟨1, 2⟩, ⟨1, 3⟩], PolyominoSymmetryGroup.None),
    ([⟨0, 0⟩, ⟨0, 1⟩, ⟨0, 2⟩, ⟨1, 0⟩, ⟨1, 1⟩, ⟨1, 2⟩], PolyominoSymmetryGroup.Rotation2FoldMirror90)] := by decide

set_option maxRecDepth 100000 in
set_option maxHeartbeats 16000000 in
theorem c6ch5 : candOf [⟨0, 0⟩, ⟨0, 1⟩, ⟨0, 2⟩, ⟨1, 0⟩, ⟨2, 0⟩] =
    [([⟨0, 0⟩, ⟨0, 1⟩, ⟨0, 2⟩, ⟨0, 3⟩, ⟨1, 1⟩, ⟨2, 1⟩], PolyominoSymmetryGroup.None),
    ([⟨0, 0⟩, ⟨0, 1⟩, ⟨0, 2⟩, ⟨0, 3⟩, ⟨1, 1⟩, ⟨2, 1⟩], PolyominoSymmetryGroup.None),
    ([⟨0, 0⟩, ⟨0, 1⟩, ⟨0, 2⟩, ⟨1, 0⟩, ⟨1, 1⟩, ⟨2, 0⟩], PolyominoSymmetryGroup.Mirror45),
    ([⟨0, 0⟩, ⟨0, 1⟩, ⟨0, 2⟩, ⟨1, 2⟩, ⟨1, 3⟩, ⟨2, 2⟩], PolyominoSymmetryGroup.None),
    ([⟨0, 0⟩, ⟨0, 1⟩, ⟨0, 2⟩, ⟨1, 0⟩, ⟨1, 2⟩, ⟨2, 0⟩], PolyominoSymmetryGroup.None),
    ([⟨0, 0⟩, ⟨0, 1⟩, ⟨0, 2⟩, ⟨1, 2⟩, ⟨2, 2⟩, ⟨2, 3⟩], PolyominoSymmetryGroup.None),
    ([⟨0, 0⟩, ⟨0, 1⟩, ⟨0, 2⟩, ⟨0, 3⟩, ⟨1, 0⟩, ⟨2, 0⟩], PolyominoSymmetryGroup.None),
    ([⟨0, 0⟩, ⟨0, 1⟩, ⟨0, 2⟩, ⟨1, 0⟩, ⟨1, 1⟩, ⟨2, 0⟩], PolyominoSymmetryGroup.Mirror45),
    ([⟨0, 0⟩, ⟨0, 1⟩, ⟨0, 2⟩, ⟨1, 2⟩, ⟨1, 3⟩, ⟨2, 2⟩], PolyominoSymmetryGroup.None),
    ([⟨0, 0⟩, ⟨0, 1⟩, ⟨0, 2⟩, ⟨0, 3⟩, ⟨1, 0⟩, ⟨2, 0⟩], PolyominoSymmetryGroup.None),
    ([⟨0, 0⟩, ⟨0, 1⟩, ⟨0, 2⟩, ⟨1, 0⟩, ⟨1, 2⟩, ⟨2, 0⟩], PolyominoSymmetryGroup.None),
    ([⟨0, 0⟩, ⟨0, 1⟩, ⟨0, 2⟩, ⟨1, 2⟩, ⟨2, 2⟩, ⟨2, 3⟩], PolyominoSymmetryGroup.None)] := by decide

set_option maxRecDepth 100000 in
set_option maxHeartbeats 16000000 in
theorem c6ch6 : candOf [⟨0, 0⟩, ⟨0, 1⟩, ⟨0, 2⟩, ⟨1, 1⟩, ⟨2, 1⟩] =
    [([⟨0, 0⟩, ⟨0, 1⟩, ⟨0, 2⟩, ⟨1, 0⟩, ⟨1, 1⟩, ⟨2, 1⟩], PolyominoSymmetryGroup.None),
    ([⟨0, 0⟩, ⟨0, 1⟩, ⟨1, 1⟩, ⟨1, 2⟩, ⟨1, 3⟩, ⟨2, 1⟩], PolyominoSymmetryGroup.None),
    ([⟨0, 0⟩, ⟨0, 1⟩, ⟨0, 2⟩, ⟨0, 3⟩, ⟨1, 1⟩, ⟨2, 1⟩], PolyominoSymmetryGroup.None),
    ([⟨0, 1⟩, ⟨1, 0⟩, ⟨1, 1⟩, ⟨1, 2⟩, ⟨1, 3⟩, ⟨2, 1⟩], PolyominoSymmetryGroup.Mirror90),
    ([⟨0, 0⟩, ⟨0, 1⟩, ⟨0, 2⟩, ⟨1, 0⟩, ⟨1, 1⟩, ⟨2, 1⟩], PolyominoSymmetryGroup.None),
    ([⟨0, 0⟩, ⟨0, 1⟩, ⟨1, 1⟩, ⟨1, 2⟩, ⟨1, 3⟩, ⟨2, 1⟩], PolyominoSymmetryGroup.None),
    ([⟨0, 0⟩, ⟨0, 1⟩, ⟨0, 2⟩, ⟨0, 3⟩, ⟨1, 1⟩, ⟨2, 1⟩], PolyominoSymmetryGroup.None),
    ([⟨0, 0⟩, ⟨0, 1⟩, ⟨0, 2⟩, ⟨1, 0⟩, ⟨1, 1⟩, ⟨2, 1⟩], PolyominoSymmetryGroup.None),
    ([⟨0, 0⟩, ⟨0, 1⟩, ⟨0, 2⟩, ⟨1, 0⟩, ⟨1, 1⟩, ⟨2, 1⟩], PolyominoSymmetryGroup.None),
    ([⟨0, 0⟩, ⟨0, 1⟩, ⟨0, 2⟩, ⟨1, 1⟩, ⟨2, 1⟩, ⟨3, 1⟩], PolyominoSymmetryGroup.Mirror90),
    ([⟨0, 0⟩, ⟨0, 1⟩, ⟨0, 2⟩, ⟨1, 1⟩, ⟨2, 0⟩, ⟨2, 1⟩], PolyominoSymmetryGroup.None),
    ([⟨0, 0⟩, ⟨0, 1⟩, ⟨0, 2⟩, ⟨1, 1⟩, ⟨2, 0⟩, ⟨2, 1⟩], PolyominoSymmetryGroup.None)] := by decide

set_option maxRecDepth 100000 in
set_option maxHeartbeats 16000000 in
theorem c6ch7 : candOf [⟨0, 0⟩, ⟨0, 1⟩, ⟨0, 2⟩, ⟨1, 2⟩, ⟨1, 3⟩] =
    [([⟨0, 0⟩, ⟨0, 1⟩, ⟨0, 2⟩, ⟨1, 0⟩, ⟨1, 2⟩, ⟨1, 3⟩], PolyominoSymmetryGroup.None),
    ([⟨0, 0⟩, ⟨0, 1⟩, ⟨1, 1⟩, ⟨1, 2⟩, ⟨1, 3⟩, ⟨2, 3⟩], PolyominoSymmetryGroup.None),
    ([⟨0, 0⟩, ⟨0, 1⟩, ⟨0, 2⟩, ⟨0, 3⟩, ⟨1, 3⟩, ⟨1, 4⟩], PolyominoSymmetryGroup.None),
    ([⟨0, 0⟩, ⟨0, 1⟩, ⟨0, 2⟩, ⟨1, 1⟩, ⟨1, 2⟩, ⟨1, 3⟩], PolyominoSymmetryGroup.Rotation2Fold),
    ([⟨0, 0⟩, ⟨0, 1⟩, ⟨1, 1⟩, ⟨1, 2⟩, ⟨1, 3⟩, ⟨2, 2⟩], PolyominoSymmetryGroup.None),
    ([⟨0, 0⟩, ⟨0, 1⟩, ⟨1, 1⟩, ⟨1, 2⟩, ⟨1, 3⟩, ⟨2, 1⟩], PolyominoSymmetryGroup.None),
    ([⟨0, 0⟩, ⟨0, 1⟩, ⟨0, 2⟩, ⟨0, 3⟩, ⟨1, 0⟩, ⟨1, 1⟩], PolyominoSymmetryGroup.None),
    ([⟨0, 0⟩, ⟨0, 1⟩, ⟨0, 2⟩, ⟨1, 2⟩, ⟨1, 3⟩, ⟨2, 2⟩], PolyominoSymmetryGroup.None),
    ([⟨0, 0⟩, ⟨0, 1⟩, ⟨0, 2⟩, ⟨1, 1⟩, ⟨1, 2⟩, ⟨1, 3⟩], PolyominoSymmetryGroup.Rotation2Fold),
    ([⟨0, 0⟩, ⟨0, 1⟩, ⟨0, 2⟩, ⟨1, 2⟩, ⟨1, 3⟩, ⟨2, 3⟩], PolyominoSymmetryGroup.None),
    ([⟨0, 0⟩, ⟨0, 1⟩, ⟨0, 2⟩, ⟨0, 3⟩, ⟨1, 0⟩, ⟨1, 1⟩], PolyominoSymmetryGroup.None),
    ([⟨0, 0⟩, ⟨0, 1⟩, ⟨0, 2⟩, ⟨1, 2⟩, ⟨1, 3⟩, ⟨1, 4⟩], PolyominoSymmetryGroup.Rotation2Fold)] := by decide

set_option maxRecDepth 100000 in
set_option maxHeartbeats 16000000 in
theorem c6ch8 : candOf [⟨0, 0⟩, ⟨0, 1⟩, ⟨1, 1⟩, ⟨1, 2⟩, ⟨2, 1⟩] =
    [([⟨0, 0⟩, ⟨0, 1⟩, ⟨1, 0⟩, ⟨1, 1⟩, ⟨1, 2⟩, ⟨2, 1⟩], PolyominoSymmetryGroup.Mirror45),
    ([⟨0, 0⟩, ⟨0, 1⟩, ⟨1, 1⟩, ⟨1, 2⟩, ⟨1, 3⟩, ⟨2, 2⟩], PolyominoSymmetryGroup.None),
    ([⟨0, 0⟩, ⟨0, 1⟩, ⟨0, 2⟩, ⟨1, 2⟩, ⟨1, 3⟩, ⟨2, 2⟩], PolyominoSymmetryGroup.None),
    ([⟨0, 1⟩, ⟨1, 0⟩, ⟨1, 1⟩, ⟨1, 2⟩, ⟨1, 3⟩, ⟨2, 2⟩], PolyominoSymmetryGroup.Rotation2Fold),
    ([⟨0, 0⟩, ⟨0, 1⟩, ⟨0, 2⟩, ⟨1, 0⟩, ⟨1, 1⟩, ⟨2, 1⟩], PolyominoSymmetryGroup.None),
    ([⟨0, 0⟩, ⟨0, 1⟩, ⟨1, 0⟩, ⟨1, 1⟩, ⟨1, 2⟩, ⟨2, 1⟩], PolyominoSymmetryGroup.Mirror45),
    ([⟨0, 0⟩, ⟨0, 1⟩, ⟨1, 0⟩, ⟨1, 1⟩, ⟨1, 2⟩, ⟨2, 2⟩], PolyominoSymmetryGroup.None),
    ([⟨0, 0⟩, ⟨0, 1⟩, ⟨0, 2⟩, ⟨1, 0⟩, ⟨1, 1⟩, ⟨2, 1⟩], PolyominoSymmetryGroup.None),
    ([⟨0, 0⟩, ⟨0, 1⟩, ⟨1, 1⟩, ⟨1, 2⟩, ⟨1, 3⟩, ⟨2, 1⟩], PolyominoSymmetryGroup.None),
    ([⟨0, 0⟩, ⟨0, 1⟩, ⟨1, 1⟩, ⟨1, 2⟩, ⟨2, 1⟩, ⟨3, 1⟩], PolyominoSymmetryGroup.None),
    ([⟨0, 0⟩, ⟨0, 1⟩, ⟨1, 0⟩, ⟨1, 1⟩, ⟨1, 2⟩, ⟨2, 2⟩], PolyominoSymmetryGroup.None),
    ([⟨0, 0⟩, ⟨0, 1⟩, ⟨1, 1⟩, ⟨1, 2⟩, ⟨2, 0⟩, ⟨2, 1⟩], PolyominoSymmetryGroup.Mirror90)] := by decide

set_option maxRecDepth 100000 in
set_option maxHeartbeats 16000000 in
theorem c6ch9 : candOf [⟨0, 0⟩, ⟨0, 1⟩, ⟨1, 1⟩, ⟨1, 2⟩, ⟨2, 2⟩] =
    [([⟨0, 0⟩, ⟨0, 1⟩, ⟨1, 0⟩, ⟨1, 1⟩, ⟨1, 2⟩, ⟨2, 2⟩], PolyominoSymmetryGroup.None),
    ([⟨0, 0⟩, ⟨0, 1⟩, ⟨1, 1⟩, ⟨1, 2⟩, ⟨2, 2⟩, ⟨2, 3⟩], PolyominoSymmetryGroup.Rotation2Fold),
    ([⟨0, 0⟩, ⟨0, 1⟩, ⟨0, 2⟩, ⟨1, 2⟩, ⟨1, 3⟩, ⟨2, 3⟩], PolyominoSymmetryGroup.None),
    ([⟨0, 0⟩, ⟨0, 1⟩, ⟨1, 1⟩, ⟨1, 2⟩, ⟨1, 3⟩, ⟨2, 2⟩], PolyominoSymmetryGroup.None),
    ([⟨0, 0⟩, ⟨0, 1⟩, ⟨0, 2⟩, ⟨1, 0⟩, ⟨1, 1⟩, ⟨2, 0⟩], PolyominoSymmetryGroup.Mirror45),
    ([⟨0, 0⟩, ⟨0, 1⟩, ⟨1, 0⟩, ⟨1, 1⟩, ⟨1, 2⟩, ⟨2, 2⟩], PolyominoSymmetryGroup.None),
    ([⟨0, 0⟩, ⟨0, 1⟩, ⟨1, 0⟩, ⟨1, 1⟩, ⟨1, 2⟩, ⟨2, 2⟩], PolyominoSymmetryGroup.None),
    ([⟨0, 0⟩, ⟨0, 1⟩, ⟨0, 2⟩, ⟨1, 0⟩, ⟨1, 1⟩, ⟨2, 0⟩], PolyominoSymmetryGroup.Mirror45),
    ([⟨0, 0⟩, ⟨0, 1⟩, ⟨1, 1⟩, ⟨1, 2⟩, ⟨1, 3⟩, ⟨2, 2⟩], PolyominoSymmetryGroup.None),
    ([⟨0, 0⟩, ⟨0, 1⟩, ⟨0, 2⟩, ⟨1, 2⟩, ⟨1, 3⟩, ⟨2, 3⟩], PolyominoSymmetryGroup.None),
    ([⟨0, 0⟩, ⟨0, 1⟩, ⟨1, 1⟩, ⟨1, 2⟩, ⟨2, 2⟩, ⟨2, 3⟩], PolyominoSymmetryGroup.Rotation2Fold),
    ([⟨0, 0⟩, ⟨0, 1⟩, ⟨1, 0⟩, ⟨1, 1⟩, ⟨1, 2⟩, ⟨2, 2⟩], PolyominoSymmetryGroup.None)] := by decide

set_option maxRecDepth 100000 in
set_option maxHeartbeats 16000000 in
theorem c6ch10 : candOf [⟨0, 0⟩, ⟨0, 1⟩, ⟨1, 1⟩, ⟨2, 1⟩, ⟨2, 2⟩] =
    [([⟨0, 0⟩, ⟨0, 1⟩, ⟨1, 0⟩, ⟨1, 1⟩, ⟨1, 2⟩, ⟨2, 2⟩], PolyominoSymmetryGroup.None),
    ([⟨0, 0⟩, ⟨0, 1⟩, ⟨1, 1⟩, ⟨1, 2⟩, ⟨1, 3⟩, ⟨2, 3⟩], PolyominoSymmetryGroup.None),
    ([⟨0, 0⟩, ⟨0, 1⟩, ⟨0, 2⟩, ⟨1, 2⟩, ⟨2, 2⟩, ⟨2, 3⟩], PolyominoSymmetryGroup.None),
    ([⟨0, 0⟩, ⟨0, 1⟩, ⟨1, 1⟩, ⟨2, 1⟩, ⟨2, 2⟩, ⟨3, 1⟩], PolyominoSymmetryGroup.None),
    ([⟨0, 0⟩, ⟨0, 1⟩, ⟨0, 2⟩, ⟨1, 1⟩, ⟨2, 0⟩, ⟨2, 1⟩], PolyominoSymmetryGroup.None),
    ([⟨0, 0⟩, ⟨0, 1⟩, ⟨1, 0⟩, ⟨1, 1⟩, ⟨1, 2⟩, ⟨2, 2⟩], PolyominoSymmetryGroup.None),
    ([⟨0, 0⟩, ⟨0, 1⟩, ⟨1, 0⟩, ⟨1, 1⟩, ⟨1, 2⟩, ⟨2, 2⟩], PolyominoSymmetryGroup.None),
    ([⟨0, 0⟩, ⟨0, 1⟩, ⟨1, 1⟩, ⟨2, 1⟩, ⟨2, 2⟩, ⟨3, 1⟩], PolyominoSymmetryGroup.None),
    ([⟨0, 0⟩, ⟨0, 1⟩, ⟨0, 2⟩, ⟨1, 1⟩, ⟨2, 0⟩, ⟨2, 1⟩], PolyominoSymmetryGroup.None),
    ([⟨0, 0⟩, ⟨0, 1⟩, ⟨1, 1⟩, ⟨1, 2⟩, ⟨1, 3⟩, ⟨2, 3⟩], PolyominoSymmetryGroup.None),
    ([⟨0, 0⟩, ⟨0, 1⟩, ⟨1, 0⟩, ⟨1, 1⟩, ⟨1, 2⟩, ⟨2, 2⟩], PolyominoSymmetryGroup.None),
    ([⟨0, 0⟩, ⟨0, 1⟩, ⟨0, 2⟩, ⟨1, 2⟩, ⟨2, 2⟩, ⟨2, 3⟩], PolyominoSymmetryGroup.None)] := by decide

set_option maxRecDepth 100000 in
set_option maxHeartbeats 16000000 in
theorem c6ch11 : candOf [⟨0, 1⟩, ⟨1, 0⟩, ⟨1, 1⟩, ⟨1, 2⟩, ⟨2, 1⟩] =
    [([⟨0, 1⟩, ⟨1, 0⟩, ⟨1, 1⟩, ⟨1, 2⟩, ⟨1, 3⟩, ⟨2, 1⟩], PolyominoSymmetryGroup.Mirror90),
    ([⟨0, 0⟩, ⟨0, 1⟩, ⟨1, 0⟩, ⟨1, 1⟩, ⟨1, 2⟩, ⟨2, 1⟩], PolyominoSymmetryGroup.Mirror45),
    ([⟨0, 0⟩, ⟨0, 1⟩, ⟨1, 0⟩, ⟨1, 1⟩, ⟨1, 2⟩, ⟨2, 1⟩], PolyominoSymmetryGroup.Mirror45),
    ([⟨0, 0⟩, ⟨0, 1⟩, ⟨1, 0⟩, ⟨1, 1⟩, ⟨1, 2⟩, ⟨2, 1⟩], PolyominoSymmetryGroup.Mirror45),
    ([⟨0, 0⟩, ⟨0, 1⟩, ⟨1, 0⟩, ⟨1, 1⟩, ⟨1, 2⟩, ⟨2, 1⟩], PolyominoSymmetryGroup.Mirror45),
    ([⟨0, 1⟩, ⟨1, 0⟩, ⟨1, 1⟩, ⟨1, 2⟩, ⟨1, 3⟩, ⟨2, 1⟩], PolyominoSymmetryGroup.Mirror90),
    ([⟨0, 0⟩, ⟨0, 1⟩, ⟨1, 0⟩, ⟨1, 1⟩, ⟨1, 2⟩, ⟨2, 1⟩], PolyominoSymmetryGroup.Mirror45),
    ([⟨0, 0⟩, ⟨0, 1⟩, ⟨1, 0⟩, ⟨1, 1⟩, ⟨1, 2⟩, ⟨2, 1⟩], PolyominoSymmetryGroup.Mirror45),
    ([⟨0, 1⟩, ⟨1, 0⟩, ⟨1, 1⟩, ⟨1, 2⟩, ⟨1, 3⟩, ⟨2, 1⟩], PolyominoSymmetryGroup.Mirror90),
    ([⟨0, 1⟩, ⟨1, 0⟩, ⟨1, 1⟩, ⟨1, 2⟩, ⟨1, 3⟩, ⟨2, 1⟩], PolyominoSymmetryGroup.Mirror90),
    ([⟨0, 0⟩, ⟨0, 1⟩, ⟨1, 0⟩, ⟨1, 1⟩, ⟨1, 2⟩, ⟨2, 1⟩], PolyominoSymmetryGroup.Mirror45),
    ([⟨0, 0⟩, ⟨0, 1⟩, ⟨1, 0⟩, ⟨1, 1⟩, ⟨1, 2⟩, ⟨2, 1⟩], PolyominoSymmetryGroup.Mirror45)] := by decide

theorem gs2 : genShapes 2 = gen2s := by decide

set_option maxRecDepth 100000 in
set_option maxHeartbeats 4000000 in
theorem gs3 : genShapes 3 = gen3s := by
  show (stepMap (genShapes 2)).map Prod.fst = gen3s
  rw [gs2]
  decide

set_option maxRecDepth 100000 in
set_option maxHeartbeats 16000000 in
theorem gs4 : genShapes 4 = gen4s := by
  show (stepMap (genShapes 3)).map Prod.fst = gen4s
  rw [gs3]
  decide

set_option maxRecDepth 100000 in
set_option maxHeartbeats 16000000 in
theorem step5_eq : (stepMap gen4s).map Prod.fst = gen5s := by
  show ((buildMap (candidates gen4s)).map Prod.fst) = gen5s
  simp only [gen4s, candidates_cons, candidates_nil, List.append_nil]
  rw [c5ch0, c5ch1, c5ch2, c5ch3, c5ch4]
  decide

theorem gs5 : genShapes 5 = gen5s := by
  show (stepMap (genShapes 4)).map Prod.fst = gen5s
  rw [gs4]
  exact step5_eq

set_option maxRecDepth 100000 in
set_option maxHeartbeats 40000000 in
theorem step6_len : ((stepMap gen5s).map Prod.fst).length = 35 := by
  show ((buildMap (candidates gen5s)).map Prod.fst).length = 35
  simp only [gen5s, candidates_cons, candidates_nil, List.append_nil]
  rw [c6ch0, c6ch1, c6ch2, c6ch3, c6ch4, c6ch5, c6ch6, c6ch7, c6ch8, c6ch9,
    c6ch10, c6ch11]
  decide

theorem genCount1 : (genShapes 1).length = 1 := by decide

theorem genCount2 : (genShapes 2).length = 1 := by
  rw [gs2]
  rfl

theorem genCount3 : (genShapes 3).length = 2 := by
  rw [gs3]
  rfl

theorem genCount4 : (genShapes 4).length = 5 := by
  rw [gs4]
  rfl

theorem genCount5 : (genShapes 5).length = 12 := by
  rw [gs5]
  rfl

theorem genCount6 : (genShapes 6).length = 35 := by
  show ((stepMap (genShapes 5)).map Prod.fst).length = 35
  rw [gs5]
  exact step6_len

/-- C5: starting from the single-cell shape at the origin, the number of
distinct free canonical forms produced by the growth engine for sizes
`n = 1` through `6` is `1, 1, 2, 5, 12, 35`. -/
theorem claim_C5_known_counts :
    (genShapes 1).length = 1 ∧ (genShapes 2).length = 1 ∧
    (genShapes 3).length = 2 ∧ (genShapes 4).length = 5 ∧
    (genShapes 5).length = 12 ∧ (genShapes 6).length = 35 :=
  ⟨genCount1, genCount2, genCount3, genCount4, genCount5, genCount6⟩
